import Mathlib

/-! # TransactionalApp: transaction status reconciliation

A shallow embedding of the backend controllers of the repository
(`backend/src/controllers/webhookController.js`,
`backend/src/controllers/transactionController.js` and `getStripeStatus` of
`backend/src/controllers/stripeController.js`) together with the Mongoose
models `backend/src/models/Transaction.js` and `backend/src/models/User.js`.

* The MongoDB collection is a list of documents in natural (insertion) order.
* Every effect a handler performs through a library (Stripe calls, Mongoose
  queries and saves, the clock) is an explicit argument, so that a handler is
  a pure function from the store before the request to the response and the
  store after it.
* `console.log` / `console.error` output is not part of the model.
-/

namespace TransactionalApp

/-! ## Data model (`models/Transaction.js`) -/

/-- The `enum` of the `status` path of `TransactionSchema`. -/
inductive Status where
  | PENDING
  | PAID
  | CANCELLED
deriving DecidableEq, Repr

/-- One element of the `history` array.  The sub-schema has the two paths
`status` and `changed_at` (default `Date.now`); the key `timestamp` that the
controllers pass to `push` is not a path of the sub-schema, so the stored
time is the default, read when the entry is created.  The controllers only
ever write the literals `'PENDING'` and `'PAID'` into `status`. -/
structure HistoryEntry where
  status : Status
  changed_at : Nat
deriving DecidableEq, Repr

/-- A document of the `Transaction` collection.  `id` is MongoDB's `_id`,
`amount` is the schema's `Number` (the rational value of the double), dates
are milliseconds. -/
structure Transaction where
  id : Nat
  user_id : Nat
  stripe_payment_link_id : String
  stripe_payment_intent_id : Option String
  amount : ℚ
  currency : String
  description : Option String
  status : Status
  payment_url : String
  history : List HistoryEntry
  created_at : Nat
deriving DecidableEq, Repr

/-- The collection, in natural order. -/
abbrev Store := List Transaction

/-- The authenticated principal that the `protect` middleware attaches to
`req.user`; the controllers read `id` and `stripe_account_id`. -/
structure User where
  id : Nat
  stripe_account_id : Option String
deriving DecidableEq, Repr

/-! ## External collaborators -/

/-- A Stripe Checkout Session, restricted to the fields the controllers read. -/
structure CheckoutSession where
  id : String
  payment_link : Option String
  payment_status : String
deriving DecidableEq, Repr

/-- A verified Stripe event: `event.type` and `event.data.object`. -/
structure Event where
  type : String
  object : CheckoutSession
deriving DecidableEq, Repr

/-- Result of `stripe.prices.create`. -/
structure Price where
  id : String
deriving DecidableEq, Repr

/-- Result of `stripe.paymentLinks.create`. -/
structure PaymentLink where
  id : String
  url : String
deriving DecidableEq, Repr

/-- The module-level `stripe` client.  Each call either returns or throws an
error whose `message` is the `String` of `Except.error`; within one request a
call is a function of its arguments.

* `constructEvent body sig secret` is `stripe.webhooks.constructEvent`;
* `sessionsList payment_link limit stripeAccount` is
  `stripe.checkout.sessions.list`, returning `sessions.data`;
* `pricesCreate currency unit_amount name stripeAccount` is
  `stripe.prices.create` (`unit_amount` is `none` for `NaN`);
* `paymentLinksCreate price quantity redirectUrl stripeAccount` is
  `stripe.paymentLinks.create`. -/
structure StripeClient where
  constructEvent : String → Option String → Option String → Except String Event
  sessionsList : String → Nat → Option String → Except String (List CheckoutSession)
  pricesCreate : String → Option ℚ → String → Option String → Except String Price
  paymentLinksCreate : String → Nat → String → Option String → Except String PaymentLink

/-- Failures of the database driver.  `query n` is the error message with which
the `n`-th (0-based) `find` / `findOne` of a handler rejects, `save i` the one
with which saving the document whose `_id` is `i` rejects, `create` the one with
which `Transaction.create` rejects; `none` means the operation succeeds. -/
structure Faults where
  query : Nat → Option String
  save : Nat → Option String
  create : Option String

/-- A driver that never fails. -/
def Faults.none : Faults := ⟨fun _ => Option.none, fun _ => Option.none, Option.none⟩

/-- What a handler wrote to `res`. -/
inductive Body where
  | empty
  | text (s : String)
  | message (m : String)
  | transaction (t : Transaction)
  | transactions (ts : List Transaction)
  | metrics (totalSales : ℚ) (count paidCount : Nat)
deriving DecidableEq, Repr

/-- Status code and body of the response (`res.send()` and `res.json(..)`
without an explicit `res.status` answer 200). -/
structure Response where
  status : Nat
  body : Body
deriving DecidableEq, Repr

/-! ## Mongoose operations on the collection -/

/-- JavaScript truthiness of a value that is a string or absent. -/
def truthy : Option String → Bool
  | some s => s != ""
  | Option.none => false

/-- The query `Transaction.findOne({ stripe_payment_link_id: link })`: the first
matching document in natural order, `null` when there is none. -/
def Transaction.findOne (faults : Faults) (n : Nat) (db : Store) (link : String) :
    Except String (Option Transaction) :=
  match faults.query n with
  | some e => .error e
  | Option.none => .ok (db.find? fun t => t.stripe_payment_link_id == link)

/-- The query `Transaction.find(filter)`: all matching documents, in natural order. -/
def Transaction.find (faults : Faults) (n : Nat) (db : Store) (filter : Transaction → Bool) :
    Except String (List Transaction) :=
  match faults.query n with
  | some e => .error e
  | Option.none => .ok (db.filter filter)

/-- The call `doc.save()`: the stored document with the `_id` of `doc` takes the state
of `doc`. -/
def Transaction.save (faults : Faults) (db : Store) (doc : Transaction) : Except String Store :=
  match faults.save doc.id with
  | some e => .error e
  | Option.none => .ok (db.map fun t => if t.id = doc.id then doc else t)

/-! ## `webhookController.js` -/

/-- The raw request of `POST /api/webhook`: the unparsed body and the
`stripe-signature` header. -/
structure WebhookRequest where
  body : String
  signature : Option String
deriving DecidableEq, Repr

/-- Lines 35-39 of `handleStripeWebhook` (and the same statements in both
sweeps): `transaction.status = 'PAID'` followed by
`transaction.history.push({ status: 'PAID', .. })`. -/
def markPaid (now : Nat) (transaction : Transaction) : Transaction :=
  { transaction with
    status := Status.PAID
    history := transaction.history ++ [⟨Status.PAID, now⟩] }

/-- The handler `handleStripeWebhook(req, res)`.  `endpointSecret` is
`process.env.STRIPE_WEBHOOK_SECRET`, `now` the clock when the history entry is
created. -/
def handleStripeWebhook (stripe : StripeClient) (endpointSecret : Option String)
    (faults : Faults) (now : Nat) (db : Store) (req : WebhookRequest) : Response × Store :=
  match stripe.constructEvent req.body req.signature endpointSecret with
  | .error message => (⟨400, Body.text ("Webhook Error: " ++ message)⟩, db)
  | .ok event =>
    let db' : Store :=
      if event.type = "checkout.session.completed" then
        let session := event.object
        if truthy session.payment_link then
          match Transaction.findOne faults 0 db (session.payment_link.getD "") with
          | .error _ => db
          | .ok Option.none => db
          | .ok (some transaction) =>
            match Transaction.save faults db (markPaid now transaction) with
            | .error _ => db
            | .ok saved => saved
        else db
      else db
    (⟨200, Body.empty⟩, db')

/-! ## `transactionController.js` -/

/-- The value of `req.body.amount` after `express.json()`, restricted to the
primitive values (`nan` cannot come out of a JSON body; it is kept because the
falsy test is defined on it).  A `number` carries the rational value of the
double. -/
inductive JsValue where
  | undefined
  | null
  | bool (b : Bool)
  | number (q : ℚ)
  | nan
  | string (s : String)
deriving DecidableEq, Repr

/-- JavaScript `!v` is `false`. -/
def JsValue.truthy : JsValue → Bool
  | .undefined => false
  | .null => false
  | .bool b => b
  | .number q => q != 0
  | .nan => false
  | .string s => s != ""

/-- What the runtime provides besides Stripe and the database:
`process.env.PORT`, the conversion of a string to a number (`none` is `NaN`)
and `encodeURIComponent`. -/
structure Runtime where
  port : Option String
  stringToNumber : String → Option ℚ
  encodeURIComponent : String → String

/-- ECMAScript `ToNumber` on the primitive values (`none` is `NaN`). -/
def JsValue.toNumber (rt : Runtime) : JsValue → Option ℚ
  | .undefined => none
  | .null => some 0
  | .bool b => some (if b then 1 else 0)
  | .number q => some q
  | .nan => none
  | .string s => rt.stringToNumber s

/-- The request of `POST /api/transactions/create-link`: `req.user`, the four
keys read from `req.body`, `req.protocol` and `req.get('host')`. -/
structure CreateLinkRequest where
  user : User
  amount : JsValue
  description : Option String
  currency : Option String
  deepLinkBase : Option String
  protocol : String
  host : String

/-- The method `s.includes(sub)`. -/
def includes (s sub : String) : Bool :=
  s.data.tails.any fun rest => sub.data.isPrefixOf rest

/-- The expression `a || b` on strings that may be absent. -/
def orElseStr (a : Option String) (b : String) : String :=
  if truthy a then a.getD b else b

/-- The call `Transaction.create({ .. })` as made by `createPaymentLink`: the `amount`
is cast to `Number`, the `required` paths are validated, the defaults
(`_id`, `created_at`, `changed_at` of the history entry) are filled in and the
document is inserted.  Returns the document and the collection after the
insert.  The texts of the validation errors are abbreviated and only the first
failing path is reported. -/
def Transaction.create (rt : Runtime) (faults : Faults) (newId now : Nat) (db : Store)
    (user_id : Nat) (stripe_payment_link_id : String) (amount : JsValue) (currency : String)
    (description : Option String) (payment_url : String) (status : Status)
    (history : List Status) : Except String (Transaction × Store) :=
  match (match amount with
         | .undefined => some none
         | .null => some none
         | .string "" => some none
         | .nan => none
         | v => (v.toNumber rt).map some) with
  | none => .error "Transaction validation failed: amount: Cast to Number failed"
  | some none => .error "Transaction validation failed: amount: Path amount is required."
  | some (some q) =>
    if stripe_payment_link_id = "" then
      .error "Transaction validation failed: stripe_payment_link_id: Path stripe_payment_link_id is required."
    else if payment_url = "" then
      .error "Transaction validation failed: payment_url: Path payment_url is required."
    else
      match faults.create with
      | some e => .error e
      | none =>
        let doc : Transaction :=
          { id := newId
            user_id := user_id
            stripe_payment_link_id := stripe_payment_link_id
            stripe_payment_intent_id := none
            amount := q
            currency := currency
            description := description
            status := status
            payment_url := payment_url
            history := history.map fun s => ⟨s, now⟩
            created_at := now }
        .ok (doc, db ++ [doc])

/-! ### The product and the sum of two Numbers

A finite JavaScript `Number` is an IEEE 754 double, here its rational value.
`a * b` and `a + b` are the exact product and the exact sum rounded to the
nearest double, ties to the even significand.  The exponent range is taken
unbounded: overflow to `Infinity` and subnormal results are not modelled.
The product `amount * 100` of `createPaymentLink` and the additions of the
`reduce` of `getMetrics` are rounded in this way. -/

/-- The number of binary digits of `n`, by at most `fuel` halvings. -/
def bitLength : Nat → Nat → Nat
  | 0, _ => 0
  | fuel + 1, n => if n = 0 then 0 else bitLength fuel (n / 2) + 1

/-- The integer nearest to `num / den`, the even one of the two when `num / den`
lies halfway. -/
def roundHalfEven (num den : Nat) : Nat :=
  let m := num / den
  let r := num % den
  if 2 * r > den ∨ (2 * r = den ∧ m % 2 = 1) then m + 1 else m

/-- The exponent `e` with `2 ^ e ≤ n / d < 2 ^ (e + 1)`, for positive `n`, `d`. -/
def floorLog2 (n d : Nat) : Int :=
  let e : Int := (bitLength n n : Int) - (bitLength d d : Int)
  if e ≥ 0 then (if d * 2 ^ e.toNat ≤ n then e else e - 1)
  else (if d ≤ n * 2 ^ (-e).toNat then e else e - 1)

/-- The double nearest to the rational `q`: 53 significant binary digits,
round to nearest, ties to even. -/
def roundDouble (q : ℚ) : ℚ :=
  if q = 0 then 0 else
    let n := q.num.natAbs
    let d := q.den
    let e := floorLog2 n d
    let s : Int := 52 - e
    let m :=
      if s ≥ 0 then roundHalfEven (n * 2 ^ s.toNat) d else roundHalfEven n (d * 2 ^ (-s).toNat)
    let v : ℚ := if s ≥ 0 then (m : ℚ) / (2 ^ s.toNat : ℕ) else (m : ℚ) * (2 ^ (-s).toNat : ℕ)
    if q < 0 then -v else v

/-- JavaScript `a * b` on finite Numbers. -/
def numberTimes (a b : ℚ) : ℚ :=
  roundDouble (a * b)

/-- JavaScript `a + b` on finite Numbers. -/
def numberPlus (a b : ℚ) : ℚ :=
  roundDouble (a + b)

/-- The expression `amounts.reduce((acc, a) => acc + a, 0)`: the amounts added
from left to right, starting from 0, every addition rounded. -/
def numberSum (amounts : List ℚ) : ℚ :=
  amounts.foldl numberPlus 0

/-- The handler `createPaymentLink(req, res)`.  `newId` is the `_id` generated for the new
document and `now` the clock at its creation. -/
def createPaymentLink (stripe : StripeClient) (rt : Runtime) (faults : Faults)
    (newId now : Nat) (db : Store) (req : CreateLinkRequest) : Response × Store :=
  let amount := req.amount
  let description := req.description
  let currency := req.currency.getD "usd"
  if !amount.truthy then
    (⟨400, Body.message "Amount is required"⟩, db)
  else if !truthy req.user.stripe_account_id then
    (⟨400, Body.message "Please connect your Stripe account first"⟩, db)
  else
    match stripe.pricesCreate currency ((amount.toNumber rt).map fun a => numberTimes a 100)
        (orElseStr description "Payment") req.user.stripe_account_id with
    | .error message => (⟨500, Body.message message⟩, db)
    | .ok price =>
      let protocol := req.protocol
      let host := req.host
      let baseUrl :=
        if includes host "10.0.2.2" || includes host "192.168" then
          protocol ++ "://localhost:" ++ orElseStr rt.port "5000" ++ "/api/stripe"
        else
          protocol ++ "://" ++ host ++ "/api/stripe"
      let appScheme := orElseStr req.deepLinkBase "mobile://"
      let successDeepLink := appScheme ++ "stripe/success"
      match stripe.paymentLinksCreate price.id 1
          (baseUrl ++ "/success?redirect_uri=" ++ rt.encodeURIComponent successDeepLink)
          req.user.stripe_account_id with
      | .error message => (⟨500, Body.message message⟩, db)
      | .ok paymentLink =>
        match Transaction.create rt faults newId now db req.user.id paymentLink.id amount
            currency description paymentLink.url Status.PENDING [Status.PENDING] with
        | .error message => (⟨500, Body.message message⟩, db)
        | .ok (transaction, db') => (⟨201, Body.transaction transaction⟩, db')

/-- One iteration of the `for` loop of `getTransactions`: the body run for one
element of `pendingTransactions`, on the collection as it is at that point.
`clock i` is the time at which the history entry of document `i` is created. -/
def getTransactions.syncStep (stripe : StripeClient) (faults : Faults) (clock : Nat → Nat)
    (user : User) (db : Store) (transaction : Transaction) : Store :=
  if transaction.stripe_payment_link_id != "" then
    match stripe.sessionsList transaction.stripe_payment_link_id 5 user.stripe_account_id with
    | .error _ => db
    | .ok sessions =>
      let paidSession := sessions.find? fun s => s.payment_status == "paid"
      if paidSession.isSome then
        match Transaction.save faults db (markPaid (clock transaction.id) transaction) with
        | .error _ => db
        | .ok saved => saved
      else db
  else db

/-- Order of `.sort({ created_at: -1 })`. -/
def sortByCreatedAtDesc (ts : List Transaction) : List Transaction :=
  ts.insertionSort fun a b => a.created_at ≥ b.created_at

/-- The handler `getTransactions(req, res)` for `req.user = user`. -/
def getTransactions (stripe : StripeClient) (faults : Faults) (clock : Nat → Nat)
    (db : Store) (user : User) : Response × Store :=
  match Transaction.find faults 0 db
      (fun t => t.user_id == user.id && t.status == Status.PENDING) with
  | .error message => (⟨500, Body.message message⟩, db)
  | .ok pendingTransactions =>
    let db' := pendingTransactions.foldl (getTransactions.syncStep stripe faults clock user) db
    match Transaction.find faults 1 db' (fun t => t.user_id == user.id) with
    | .error message => (⟨500, Body.message message⟩, db')
    | .ok transactions => (⟨200, Body.transactions (sortByCreatedAtDesc transactions)⟩, db')

/-- One iteration of the `for` loop of `getMetrics`. -/
def getMetrics.syncStep (stripe : StripeClient) (faults : Faults) (clock : Nat → Nat)
    (user : User) (db : Store) (transaction : Transaction) : Store :=
  if transaction.stripe_payment_link_id != "" then
    match stripe.sessionsList transaction.stripe_payment_link_id 5 user.stripe_account_id with
    | .error _ => db
    | .ok sessions =>
      let paidSession := sessions.find? fun s => s.payment_status == "paid"
      if paidSession.isSome then
        match Transaction.save faults db (markPaid (clock transaction.id) transaction) with
        | .error _ => db
        | .ok saved => saved
      else db
  else db

/-- The handler `getMetrics(req, res)` for `req.user = user`. -/
def getMetrics (stripe : StripeClient) (faults : Faults) (clock : Nat → Nat)
    (db : Store) (user : User) : Response × Store :=
  match Transaction.find faults 0 db
      (fun t => t.user_id == user.id && t.status == Status.PENDING) with
  | .error message => (⟨500, Body.message message⟩, db)
  | .ok pendingTransactions =>
    let db' := pendingTransactions.foldl (getMetrics.syncStep stripe faults clock user) db
    match Transaction.find faults 1 db' (fun t => t.user_id == user.id) with
    | .error message => (⟨500, Body.message message⟩, db')
    | .ok transactions =>
      let totalSales := (transactions.filter fun t => t.status == Status.PAID).foldl
        (fun acc curr => numberPlus acc curr.amount) 0
      let count := transactions.length
      let paidCount := (transactions.filter fun t => t.status == Status.PAID).length
      (⟨200, Body.metrics totalSales count paidCount⟩, db')

/-! ## `stripeController.js` and `models/User.js` -/

/-- A document of the `User` collection (`UserSchema`); `id` is `_id`. -/
structure UserDoc where
  id : Nat
  email : String
  password_hash : String
  stripe_account_id : Option String
  stripe_onboarding_complete : Bool
  created_at : Nat
deriving DecidableEq, Repr

/-- A Stripe account, restricted to the fields that `getStripeStatus` reads. -/
structure Account where
  id : String
  details_submitted : Bool
  charges_enabled : Bool
  payouts_enabled : Bool
deriving DecidableEq, Repr

/-- The module-level `stripe` client of `stripeController.js`, restricted to
`stripe.accounts.retrieve`, which returns the account or throws an error with
the given message. -/
structure StripeAccounts where
  retrieve : String → Except String Account

/-- Failures of the database driver on the `User` collection: the message with
which `User.findById` and `user.save()` reject, `none` when they succeed. -/
structure UserFaults where
  findById : Option String
  save : Option String

/-- What `getStripeStatus` wrote to `res`: `{ connected: false }`, the object
with `connected`, `details_submitted` and `charges_enabled`, or
`{ message }`. -/
inductive StatusBody where
  | notConnected
  | status (connected details_submitted charges_enabled : Bool)
  | message (m : String)
deriving DecidableEq, Repr

/-- Status code and body of the response of `getStripeStatus`. -/
structure StatusResponse where
  status : Nat
  body : StatusBody
deriving DecidableEq, Repr

/-- The query `User.findById(id)`: the document with that `_id`, `null` when there
is none. -/
def User.findById (faults : UserFaults) (users : List UserDoc) (i : Nat) :
    Except String (Option UserDoc) :=
  match faults.findById with
  | some e => .error e
  | none => .ok (users.find? fun u => u.id == i)

/-- The call `user.save()`: the stored document with the `_id` of `doc` takes the
state of `doc`. -/
def User.save (faults : UserFaults) (users : List UserDoc) (doc : UserDoc) :
    Except String (List UserDoc) :=
  match faults.save with
  | some e => .error e
  | none => .ok (users.map fun u => if u.id = doc.id then doc else u)

/-- The handler `getStripeStatus(req, res)` for `req.user = reqUser`, on the `User`
collection `users`.  Reading `user._id` of a missing user throws, which the
`catch` answers with 500. -/
def getStripeStatus (stripe : StripeAccounts) (faults : UserFaults) (users : List UserDoc)
    (reqUser : User) : StatusResponse × List UserDoc :=
  match User.findById faults users reqUser.id with
  | .error message => (⟨500, StatusBody.message message⟩, users)
  | .ok none =>
    (⟨500, StatusBody.message "Cannot read properties of null (reading '_id')"⟩, users)
  | .ok (some user) =>
    if !truthy user.stripe_account_id then
      (⟨200, StatusBody.notConnected⟩, users)
    else
      match stripe.retrieve (user.stripe_account_id.getD "") with
      | .error message => (⟨500, StatusBody.message message⟩, users)
      | .ok account =>
        let connected := account.details_submitted
        if connected != user.stripe_onboarding_complete then
          match User.save faults users { user with stripe_onboarding_complete := connected } with
          | .error message => (⟨500, StatusBody.message message⟩, users)
          | .ok saved =>
            (⟨200, StatusBody.status connected account.details_submitted
              account.charges_enabled⟩, saved)
        else
          (⟨200, StatusBody.status connected account.details_submitted
            account.charges_enabled⟩, users)

/-- The stored user with a given `_id`. -/
def storedUser (users : List UserDoc) (i : Nat) : Option UserDoc :=
  users.find? fun u => u.id == i

/-! ## Predicates used in the statements -/

/-- The history invariant of one document: `history` is non-empty and the
status of its last entry is the document's `status`. -/
def HistoryInv (t : Transaction) : Prop :=
  t.history ≠ [] ∧ t.history.getLast?.map HistoryEntry.status = some t.status

instance (t : Transaction) : Decidable (HistoryInv t) := by
  unfold HistoryInv; infer_instance

/-- The `_id` is a key of the collection. -/
def UniqueIds (db : Store) : Prop :=
  (db.map Transaction.id).Nodup

instance (db : Store) : Decidable (UniqueIds db) := by
  unfold UniqueIds; infer_instance

/-- The payment link id identifies at most one document. -/
def UniqueLinks (db : Store) : Prop :=
  (db.map Transaction.stripe_payment_link_id).Nodup

instance (db : Store) : Decidable (UniqueLinks db) := by
  unfold UniqueLinks; infer_instance

/-- The lookup `Transaction.findById`, used to name "the same transaction" after an
operation. -/
def findById (db : Store) (i : Nat) : Option Transaction :=
  db.find? fun t => t.id == i

/-- The session lookup of the sweep for `t` succeeds and one of the returned
sessions has `payment_status` equal to `'paid'`. -/
def paidSessionFound (stripe : StripeClient) (user : User) (t : Transaction) : Bool :=
  match stripe.sessionsList t.stripe_payment_link_id 5 user.stripe_account_id with
  | .ok sessions => sessions.any fun s => s.payment_status == "paid"
  | .error _ => false

/-- The condition of the sweep postcondition: owned by the requesting user,
`PENDING`, with a non-empty payment link id, and a paid session was found. -/
def sweepSelects (stripe : StripeClient) (user : User) (t : Transaction) : Bool :=
  t.user_id == user.id && t.status == Status.PENDING && t.stripe_payment_link_id != ""
    && paidSessionFound stripe user t

/-- The condition of the sweep postcondition in words: `t` is owned by the
requesting user, is `PENDING`, has a non-empty payment link id, its session
lookup succeeds and at least one returned session has `payment_status`
`'paid'`. -/
def SweepCondition (stripe : StripeClient) (user : User) (t : Transaction) : Prop :=
  t.user_id = user.id ∧ t.status = Status.PENDING ∧ t.stripe_payment_link_id ≠ "" ∧
    ∃ sessions, stripe.sessionsList t.stripe_payment_link_id 5 user.stripe_account_id = .ok sessions ∧
      ∃ s ∈ sessions, s.payment_status = "paid"

/-- Statuses of the entries of a history, in order. -/
def historyStatuses (t : Transaction) : List Status :=
  t.history.map HistoryEntry.status

/-- The redirect URL that `createPaymentLink` passes to
`stripe.paymentLinks.create` as `after_completion.redirect.url`. -/
def createPaymentLink.redirectUrl (rt : Runtime) (req : CreateLinkRequest) : String :=
  (if includes req.host "10.0.2.2" || includes req.host "192.168" then
      req.protocol ++ "://localhost:" ++ orElseStr rt.port "5000" ++ "/api/stripe"
    else
      req.protocol ++ "://" ++ req.host ++ "/api/stripe")
    ++ "/success?redirect_uri="
    ++ rt.encodeURIComponent (orElseStr req.deepLinkBase "mobile://" ++ "stripe/success")

/-- The transactions of `user` in a collection. -/
def ownedBy (user : User) (db : Store) : List Transaction :=
  db.filter fun t => t.user_id == user.id

/-- The transactions of `user` with status `PAID` in a collection. -/
def paidOf (user : User) (db : Store) : List Transaction :=
  (ownedBy user db).filter fun t => t.status == Status.PAID

/-- The metrics of `user` on a given collection: the amounts of the paid
transactions added in the order of the collection, the total count and the
paid count. -/
def metricsOf (user : User) (db : Store) : Body :=
  Body.metrics (numberSum ((paidOf user db).map Transaction.amount)) (ownedBy user db).length
    (paidOf user db).length

/-- No addition of `numberSum` rounds on these amounts: every sum of the first
`k` amounts is a double. -/
def NoRounding (amounts : List ℚ) : Prop :=
  ∀ k, k ≤ amounts.length → roundDouble (amounts.take k).sum = (amounts.take k).sum

instance (amounts : List ℚ) : Decidable (NoRounding amounts) := by
  unfold NoRounding; infer_instance

/-- The sweep marks `t` paid: the pending query succeeds, `t` is selected by
the sweep and its save succeeds. -/
def sweepApplies (stripe : StripeClient) (faults : Faults) (user : User) (t : Transaction) : Bool :=
  (faults.query 0).isNone && sweepSelects stripe user t && (faults.save t.id).isNone

/-- A transaction without the times of its history entries: the document with
an empty history, and the statuses of the history. -/
def forgetTimestamps (t : Transaction) : Transaction × List Status :=
  ({ t with history := [] }, t.history.map HistoryEntry.status)

/-- Two results of a session lookup that cannot be told apart by looking for a
paid session: both lookups throw, or both return and either both lists or
neither hold a session whose `payment_status` is `'paid'`. -/
def SamePaidness (r₁ r₂ : Except String (List CheckoutSession)) : Prop :=
  match r₁, r₂ with
  | .error _, .error _ => True
  | .ok l₁, .ok l₂ => (∃ s ∈ l₁, s.payment_status = "paid") ↔ (∃ s ∈ l₂, s.payment_status = "paid")
  | _, _ => False

/-- Two results of a session lookup that differ at most in the order of the
returned sessions: both lookups throw, or both return and the lists are
permutations of each other. -/
def SameUpToOrder (r₁ r₂ : Except String (List CheckoutSession)) : Prop :=
  match r₁, r₂ with
  | .error _, .error _ => True
  | .ok l₁, .ok l₂ => l₁.Perm l₂
  | _, _ => False

/-! ## Interleavings of the webhook path and the sweep

The two handlers are split at their `await` points on the database.  The sweep
first loads `pendingTransactions` and later runs its loop; the webhook handler
first runs `findOne` and later saves.  Between the two steps of one handler the
other handler may run.  `save()` sends the changes made to the loaded document,
filtered by `_id`: the new `status` and the pushed history entry.  The Stripe
event is verified, of type `checkout.session.completed`, and the driver does
not fail. -/

/-- The atomic steps of the two handlers. -/
inductive RaceStep where
  | sweepFind
  | sweepSave
  | webhookFind
  | webhookSave
deriving DecidableEq, Repr

/-- The collection together with what each handler holds in memory:
`pendingTransactions` of the sweep and `transaction` of the webhook handler
(`none` before the query has run). -/
structure RaceState where
  db : Store
  pendingTransactions : Option (List Transaction)
  transaction : Option (Option Transaction)
deriving DecidableEq, Repr

/-- What `save()` writes for a document marked paid at `now`: on the stored
document with that `_id`, `status` is set and the history entry is pushed.
When the stored document is the loaded one, this is `Transaction.save` of the
marked document. -/
def Transaction.saveChanges (db : Store) (i : Nat) (now : Nat) : Store :=
  db.map fun t => if t.id = i then markPaid now t else t

/-- One atomic step.  `link` is the `payment_link` of the event, `now` the
clock of the webhook handler, `clock` the one of the sweep. -/
def raceStep (stripe : StripeClient) (clock : Nat → Nat) (user : User) (link : String)
    (now : Nat) (s : RaceState) : RaceStep → RaceState
  | .sweepFind =>
    let found := s.db.filter fun t => t.user_id == user.id && t.status == Status.PENDING
    { s with pendingTransactions := some found }
  | .sweepSave =>
    match s.pendingTransactions with
    | none => s
    | some pendingTransactions =>
      { s with
        db := pendingTransactions.foldl (fun db transaction =>
          if transaction.stripe_payment_link_id != "" then
            match stripe.sessionsList transaction.stripe_payment_link_id 5
                user.stripe_account_id with
            | .error _ => db
            | .ok sessions =>
              if (sessions.find? fun s => s.payment_status == "paid").isSome then
                Transaction.saveChanges db transaction.id (clock transaction.id)
              else db
          else db) s.db
        pendingTransactions := none }
  | .webhookFind =>
    let found := s.db.find? fun t => t.stripe_payment_link_id == link
    { s with transaction := some found }
  | .webhookSave =>
    match s.transaction with
    | some (some transaction) =>
      { s with db := Transaction.saveChanges s.db transaction.id now, transaction := none }
    | _ => s

/-- The collection after a schedule of atomic steps, starting from `db` with
both handlers at their beginning. -/
def runRace (stripe : StripeClient) (clock : Nat → Nat) (user : User) (link : String)
    (now : Nat) (db : Store) (schedule : List RaceStep) : Store :=
  (schedule.foldl (raceStep stripe clock user link now) ⟨db, none, none⟩).db

/-- The number of history entries with status `PAID`. -/
def paidEntries (t : Transaction) : Nat :=
  (t.history.filter fun e => e.status == Status.PAID).length

/-- The relation between a collection and the collection after an operation
that adds and removes no document and leaves every document as it was or marks
it paid. -/
def OnlyMarkedPaid (db after : Store) : Prop :=
  after.map Transaction.id = db.map Transaction.id ∧
    ∀ t ∈ db, findById after t.id = some t ∨ ∃ now, findById after t.id = some (markPaid now t)

/-- Every path of the document other than `status` and `history` has the same
value in `t` and in `t'`. -/
def SameImmutableFields (t t' : Transaction) : Prop :=
  t'.id = t.id ∧ t'.user_id = t.user_id ∧
    t'.stripe_payment_link_id = t.stripe_payment_link_id ∧
    t'.stripe_payment_intent_id = t.stripe_payment_intent_id ∧ t'.amount = t.amount ∧
    t'.currency = t.currency ∧ t'.description = t.description ∧
    t'.payment_url = t.payment_url ∧ t'.created_at = t.created_at

/-! ## Fixtures for the concrete instances -/

namespace Fixture

/-- A user with a connected Stripe account. -/
def alice : User := ⟨7, some "acct_1"⟩

/-- A freshly created transaction of `alice`. -/
def coffee : Transaction :=
  { id := 1, user_id := 7, stripe_payment_link_id := "plink_1", stripe_payment_intent_id := none,
    amount := 10, currency := "usd", description := some "coffee", status := Status.PENDING,
    payment_url := "https://buy.stripe.com/1", history := [⟨Status.PENDING, 100⟩],
    created_at := 100 }

/-- A second pending transaction of `alice`, whose session lookup fails. -/
def tea : Transaction :=
  { id := 2, user_id := 7, stripe_payment_link_id := "plink_2", stripe_payment_intent_id := none,
    amount := 4, currency := "usd", description := some "tea", status := Status.PENDING,
    payment_url := "https://buy.stripe.com/2", history := [⟨Status.PENDING, 110⟩],
    created_at := 110 }

/-- A pending transaction of another user, with a paid session at Stripe. -/
def cake : Transaction :=
  { id := 3, user_id := 8, stripe_payment_link_id := "plink_3", stripe_payment_intent_id := none,
    amount := 25/2, currency := "eur", description := none, status := Status.PENDING,
    payment_url := "https://buy.stripe.com/3", history := [⟨Status.PENDING, 120⟩],
    created_at := 120 }

/-- A cancelled transaction of `alice`. -/
def refundedJuice : Transaction :=
  { id := 4, user_id := 7, stripe_payment_link_id := "plink_4", stripe_payment_intent_id := none,
    amount := 3, currency := "usd", description := some "juice", status := Status.CANCELLED,
    payment_url := "https://buy.stripe.com/4",
    history := [⟨Status.PENDING, 130⟩, ⟨Status.CANCELLED, 140⟩], created_at := 130 }

/-- A Stripe double.  The signature `sig_ok` verifies; the verified event is
`checkout.session.completed` for the payment link named by the body, except
for the body `ping`, whose event is of another type.  Links `plink_1` and
`plink_3` have a paid session, the lookup for `plink_2` throws, the other links
have one unpaid session. -/
def stripe : StripeClient where
  constructEvent body sig _ :=
    if sig = some "sig_ok" then
      if body = "ping" then .ok ⟨"customer.created", ⟨"cus_1", none, ""⟩⟩
      else .ok ⟨"checkout.session.completed", ⟨"cs_1", some body, "paid"⟩⟩
    else .error "No signatures found matching the expected signature for payload."
  sessionsList link _ _ :=
    if link = "plink_1" ∨ link = "plink_3" then
      .ok [⟨"cs_0", some link, "unpaid"⟩, ⟨"cs_1", some link, "paid"⟩]
    else if link = "plink_2" then .error "An error occurred with our connection to Stripe."
    else .ok [⟨"cs_2", some link, "unpaid"⟩]
  pricesCreate _ _ _ _ := .ok ⟨"price_1"⟩
  paymentLinksCreate _ _ _ _ := .ok ⟨"plink_9", "https://buy.stripe.com/9"⟩

/-- A runtime without `PORT`, whose string conversion knows no number. -/
def runtime : Runtime := ⟨none, fun _ => none, fun s => s⟩

/-- A create-link request of `alice` for 10.00 usd. -/
def createRequest : CreateLinkRequest :=
  { user := alice, amount := JsValue.number 10, description := some "coffee", currency := none,
    deepLinkBase := none, protocol := "https", host := "api.example.com" }

/-- The clock of the sweeps in the instances. -/
def clock (i : Nat) : Nat := 200 + i

/-- A Stripe double like `stripe` whose session lookups all throw. -/
def stripeDown : StripeClient :=
  { stripe with sessionsList := fun _ _ _ => .error "An error occurred with our connection to Stripe." }

/-- A Stripe double like `stripe` that returns the sessions in the opposite
order. -/
def stripeReordered : StripeClient :=
  { stripe with sessionsList := fun link limit account =>
      match stripe.sessionsList link limit account with
      | .ok sessions => .ok sessions.reverse
      | .error e => .error e }

/-- A paid transaction of `alice`. -/
def bread : Transaction :=
  { id := 5, user_id := 7, stripe_payment_link_id := "plink_5", stripe_payment_intent_id := none,
    amount := 7/2, currency := "usd", description := some "bread", status := Status.PAID,
    payment_url := "https://buy.stripe.com/5",
    history := [⟨Status.PENDING, 90⟩, ⟨Status.PAID, 95⟩], created_at := 90 }

/-- A collection with transactions of both users in every status. -/
def shop : Store := [tea, coffee, cake, refundedJuice, bread]

/-- A create-link request of `alice` for 19.99 usd: the amount is the double
that the JSON number `19.99` denotes. -/
def createRequest1999 : CreateLinkRequest :=
  { createRequest with amount := JsValue.number (roundDouble (1999 / 100)) }

/-- A Stripe double like `stripe` whose price creation accepts a `unit_amount`
only when it is an integer, as the Stripe API does. -/
def stripeStrict : StripeClient :=
  { stripe with pricesCreate := fun _ unit_amount _ _ =>
      match unit_amount with
      | some cents => if cents.den = 1 then .ok ⟨"price_1"⟩ else .error "Invalid integer"
      | none => .error "Invalid integer" }

/-- The stored user `alice`, not yet marked as onboarded. -/
def aliceDoc : UserDoc :=
  { id := 7, email := "alice@example.com", password_hash := "hash_a",
    stripe_account_id := some "acct_1", stripe_onboarding_complete := false, created_at := 10 }

/-- A stored user without a Stripe account. -/
def bobDoc : UserDoc :=
  { id := 8, email := "bob@example.com", password_hash := "hash_b",
    stripe_account_id := none, stripe_onboarding_complete := false, created_at := 20 }

/-- A Stripe double for the accounts: `acct_1` has submitted its details and
cannot take charges yet. -/
def stripeAccounts : StripeAccounts :=
  ⟨fun account =>
    if account = "acct_1" then .ok ⟨"acct_1", true, false, false⟩
    else .error "No such account"⟩

/-- A paid transaction of `alice` for 0.1 usd. -/
def gum : Transaction :=
  { id := 11, user_id := 7, stripe_payment_link_id := "plink_11",
    stripe_payment_intent_id := none, amount := roundDouble (1 / 10), currency := "usd",
    description := some "gum", status := Status.PAID, payment_url := "https://buy.stripe.com/11",
    history := [⟨Status.PENDING, 60⟩, ⟨Status.PAID, 65⟩], created_at := 60 }

/-- A paid transaction of `alice` for 0.2 usd. -/
def mint : Transaction :=
  { id := 12, user_id := 7, stripe_payment_link_id := "plink_12",
    stripe_payment_intent_id := none, amount := roundDouble (2 / 10), currency := "usd",
    description := some "mint", status := Status.PAID, payment_url := "https://buy.stripe.com/12",
    history := [⟨Status.PENDING, 70⟩, ⟨Status.PAID, 75⟩], created_at := 70 }

/-- A paid transaction of `alice` for 0.3 usd. -/
def lime : Transaction :=
  { id := 13, user_id := 7, stripe_payment_link_id := "plink_13",
    stripe_payment_intent_id := none, amount := roundDouble (3 / 10), currency := "usd",
    description := some "lime", status := Status.PAID, payment_url := "https://buy.stripe.com/13",
    history := [⟨Status.PENDING, 80⟩, ⟨Status.PAID, 85⟩], created_at := 80 }

end Fixture

/-! ## Lemmas -/

theorem markPaid_historyInv (now : Nat) (t : Transaction) : HistoryInv (markPaid now t) := by
  simp [HistoryInv, markPaid]

theorem markPaid_id (now : Nat) (t : Transaction) : (markPaid now t).id = t.id := rfl

theorem markPaid_ne (now : Nat) (t : Transaction) : markPaid now t ≠ t := by
  intro h
  have := congrArg (fun x => x.history.length) h
  simp [markPaid] at this

/-- Saving a document either fails and leaves the collection alone or replaces
by it the documents with its `_id`. -/
theorem save_cases (faults : Faults) (db : Store) (doc : Transaction) :
    (∃ e, faults.save doc.id = some e ∧ Transaction.save faults db doc = .error e) ∨
    (faults.save doc.id = none ∧
      Transaction.save faults db doc = .ok (db.map fun t => if t.id = doc.id then doc else t)) := by
  unfold Transaction.save
  cases h : faults.save doc.id with
  | none => exact Or.inr ⟨rfl, rfl⟩
  | some e => exact Or.inl ⟨e, rfl, rfl⟩

/-- The collection after the webhook handler is the collection before it, or
the one in which the document found by the payment link is marked paid. -/
theorem webhook_store_cases (stripe : StripeClient) (secret : Option String) (faults : Faults)
    (now : Nat) (db : Store) (req : WebhookRequest) :
    (handleStripeWebhook stripe secret faults now db req).2 = db ∨
    ∃ ev link t, stripe.constructEvent req.body req.signature secret = .ok ev ∧
      ev.type = "checkout.session.completed" ∧ ev.object.payment_link = some link ∧ link ≠ "" ∧
      faults.query 0 = none ∧ faults.save t.id = none ∧
      db.find? (fun x => x.stripe_payment_link_id == link) = some t ∧
      (handleStripeWebhook stripe secret faults now db req).2 =
        db.map fun x => if x.id = t.id then markPaid now t else x := by
  unfold handleStripeWebhook
  cases hc : stripe.constructEvent req.body req.signature secret with
  | error e => exact Or.inl rfl
  | ok ev =>
    by_cases hty : ev.type = "checkout.session.completed"
    · cases hl : ev.object.payment_link with
      | none => left; simp [hty, hl, truthy]
      | some link =>
        by_cases hne : link = ""
        · left; simp [hty, hl, truthy, hne]
        · cases hq : faults.query 0 with
          | some e => left; simp [hty, hl, truthy, hne, Transaction.findOne, hq]
          | none =>
            cases hf : db.find? (fun x => x.stripe_payment_link_id == link) with
            | none => left; simp [hty, hl, truthy, hne, Transaction.findOne, hq, hf]
            | some t =>
              rcases save_cases faults db (markPaid now t) with ⟨e, _, hs⟩ | ⟨hs0, hs⟩
              · left; simp [hty, hl, truthy, hne, Transaction.findOne, hq, hf, hs]
              · right
                refine ⟨ev, link, t, rfl, hty, hl, hne, rfl, hs0, hf, ?_⟩
                simp [hty, hl, truthy, hne, Transaction.findOne, hq, hf, hs, markPaid_id]
    · left; simp [hty]

/-- The loop body of `getMetrics` is the loop body of `getTransactions`. -/
theorem getMetrics_syncStep_eq :
    getMetrics.syncStep = getTransactions.syncStep := rfl

/-- One iteration of the sweep leaves the collection alone, or replaces the
documents with the `_id` of the swept one by its paid state. -/
theorem syncStep_cases (stripe : StripeClient) (faults : Faults) (clock : Nat → Nat)
    (user : User) (cur : Store) (t : Transaction) :
    getTransactions.syncStep stripe faults clock user cur t = cur ∨
    ((t.stripe_payment_link_id != "" && paidSessionFound stripe user t) = true ∧
      faults.save t.id = none ∧
      getTransactions.syncStep stripe faults clock user cur t =
        cur.map fun x => if x.id = t.id then markPaid (clock t.id) t else x) := by
  unfold getTransactions.syncStep paidSessionFound
  by_cases hl : t.stripe_payment_link_id = ""
  · left; simp [hl]
  · cases hs : stripe.sessionsList t.stripe_payment_link_id 5 user.stripe_account_id with
    | error e => left; simp [hl]
    | ok sessions =>
      by_cases hp : (sessions.find? fun s => s.payment_status == "paid").isSome = true
      · rcases save_cases faults cur (markPaid (clock t.id) t) with ⟨e, _, hsv⟩ | ⟨hs0, hsv⟩
        · left; simp [hl, hp, hsv]
        · right
          refine ⟨?_, hs0, ?_⟩
          · simpa [hl] using hp
          · simp [hl, hp, hsv, markPaid_id]
      · left; simp [hl, hp]

/-- With a driver whose saves succeed, one iteration of the sweep is a map over
the collection. -/
theorem syncStep_eq_map (stripe : StripeClient) (faults : Faults) (clock : Nat → Nat)
    (user : User) (cur : Store) (t : Transaction) (hsave : ∀ i, faults.save i = none) :
    getTransactions.syncStep stripe faults clock user cur t =
      cur.map fun x =>
        if x.id = t.id ∧ (t.stripe_payment_link_id != "" && paidSessionFound stripe user t) = true
        then markPaid (clock t.id) t else x := by
  unfold getTransactions.syncStep paidSessionFound
  by_cases hl : t.stripe_payment_link_id = ""
  · simp [hl]
  · cases hs : stripe.sessionsList t.stripe_payment_link_id 5 user.stripe_account_id with
    | error e => simp [hl]
    | ok sessions =>
      by_cases hp : (sessions.find? fun s => s.payment_status == "paid").isSome = true
      · have hp' : (sessions.any fun s => s.payment_status == "paid") = true := by
          simpa using hp
        simp [hl, hp, hp', Transaction.save, hsave, markPaid_id]
      · have hp' : ¬ (sessions.any fun s => s.payment_status == "paid") = true := by
          simpa using hp
        simp [hl, hp, hp']

/-- A property that every paid document has and that holds in the collection
before the loop of the sweep holds after it. -/
theorem sweep_loop_preserves (P : Transaction → Prop) (hP : ∀ c t, P (markPaid c t))
    (stripe : StripeClient) (faults : Faults) (clock : Nat → Nat) (user : User)
    (pend : List Transaction) :
    ∀ cur : Store, (∀ x ∈ cur, P x) →
      ∀ x ∈ pend.foldl (getTransactions.syncStep stripe faults clock user) cur, P x := by
  induction pend with
  | nil => intro cur h; simpa using h
  | cons t rest ih =>
    intro cur h
    simp only [List.foldl_cons]
    apply ih
    rcases syncStep_cases stripe faults clock user cur t with h1 | ⟨_, _, h1⟩
    · rw [h1]; exact h
    · rw [h1]
      intro x hx
      rcases List.mem_map.1 hx with ⟨y, hy, rfl⟩
      by_cases hid : y.id = t.id
      · simp only [hid, if_true]; exact hP _ _
      · simp only [hid, if_false]; exact h y hy

/-- The collection after `getTransactions` is the collection before it or the
result of the loop over the pending documents of the user. -/
theorem getTransactions_store (stripe : StripeClient) (faults : Faults) (clock : Nat → Nat)
    (db : Store) (user : User) :
    (getTransactions stripe faults clock db user).2 =
      match faults.query 0 with
      | some _ => db
      | none => (db.filter fun t => t.user_id == user.id && t.status == Status.PENDING).foldl
          (getTransactions.syncStep stripe faults clock user) db := by
  unfold getTransactions Transaction.find
  cases h0 : faults.query 0 with
  | some e => rfl
  | none =>
    cases h1 : faults.query 1 with
    | some e => rfl
    | none => rfl

/-- The sync phase of `getMetrics` leaves the collection that the sync phase
of `getTransactions` leaves. -/
theorem getMetrics_store (stripe : StripeClient) (faults : Faults) (clock : Nat → Nat)
    (db : Store) (user : User) :
    (getMetrics stripe faults clock db user).2 =
      (getTransactions stripe faults clock db user).2 := by
  unfold getMetrics getTransactions Transaction.find
  rw [getMetrics_syncStep_eq]
  cases h0 : faults.query 0 with
  | some e => rfl
  | none =>
    cases h1 : faults.query 1 with
    | some e => rfl
    | none => rfl

/-- What `createPaymentLink` does to the collection: nothing, or it answers 201
and appends one document, `PENDING`, with the single history entry
`PENDING`. -/
theorem createPaymentLink_cases (stripe : StripeClient) (rt : Runtime) (faults : Faults)
    (newId now : Nat) (db : Store) (req : CreateLinkRequest) :
    ((createPaymentLink stripe rt faults newId now db req).2 = db ∧
      (createPaymentLink stripe rt faults newId now db req).1.status ≠ 201 ∧
      ∃ m, (createPaymentLink stripe rt faults newId now db req).1.body = Body.message m) ∨
    ∃ t, createPaymentLink stripe rt faults newId now db req = (⟨201, Body.transaction t⟩, db ++ [t]) ∧
      t.id = newId ∧ t.user_id = req.user.id ∧ t.status = Status.PENDING ∧
      t.history = [⟨Status.PENDING, now⟩] ∧ t.created_at = now := by
  unfold createPaymentLink
  by_cases ha : req.amount.truthy = true
  swap
  · left; simp [ha]
  by_cases hu : truthy req.user.stripe_account_id = true
  swap
  · left; simp [ha, hu]
  simp only [ha, hu, Bool.not_true, Bool.false_eq_true, if_false]
  split
  · left; simp
  · split
    · left; simp
    · split
      · left; simp
      · rename_i transaction db' hc
        right
        unfold Transaction.create at hc
        split at hc
        · simp at hc
        · simp at hc
        · split at hc
          · simp at hc
          · split at hc
            · simp at hc
            · split at hc
              · simp at hc
              · simp only [Except.ok.injEq, Prod.mk.injEq] at hc
                obtain ⟨h1, h2⟩ := hc
                subst h1
                subst h2
                exact ⟨_, rfl, rfl, rfl, rfl, rfl, rfl⟩

/-- With saves that succeed, the loop of the sweep maps every document of the
collection through the per-document effect of the iterations. -/
theorem sweep_loop_eq_map (stripe : StripeClient) (faults : Faults) (clock : Nat → Nat)
    (user : User) (hsave : ∀ i, faults.save i = none) (pend : List Transaction) :
    ∀ cur : Store, pend.foldl (getTransactions.syncStep stripe faults clock user) cur =
      cur.map fun x => pend.foldl (fun acc t =>
        if acc.id = t.id ∧ (t.stripe_payment_link_id != "" && paidSessionFound stripe user t) = true
        then markPaid (clock t.id) t else acc) x := by
  induction pend with
  | nil => intro cur; simp
  | cons t rest ih =>
    intro cur
    simp only [List.foldl_cons]
    rw [ih, syncStep_eq_map stripe faults clock user cur t hsave, List.map_map]
    rfl

/-- The per-document effect of the iterations on a document `x`, when `x` is
the only swept document with its `_id`. -/
theorem sweep_effect_on (stripe : StripeClient) (clock : Nat → Nat) (user : User)
    (x : Transaction) (pend : List Transaction) :
    ∀ acc : Transaction, acc.id = x.id → (∀ t ∈ pend, t.id = x.id → t = x) →
      pend.foldl (fun acc t =>
        if acc.id = t.id ∧ (t.stripe_payment_link_id != "" && paidSessionFound stripe user t) = true
        then markPaid (clock t.id) t else acc) acc =
      if x ∈ pend ∧ (x.stripe_payment_link_id != "" && paidSessionFound stripe user x) = true
      then markPaid (clock x.id) x else acc := by
  induction pend with
  | nil => intro acc _ _; simp
  | cons t rest ih =>
    intro acc hacc huniq
    have hrest : ∀ t ∈ rest, t.id = x.id → t = x :=
      fun u hu => huniq u (List.mem_cons_of_mem _ hu)
    simp only [List.foldl_cons]
    by_cases hid : t.id = x.id
    · have htx : t = x := huniq t (List.mem_cons_self _ _) hid
      subst htx
      by_cases hsel : (t.stripe_payment_link_id != "" && paidSessionFound stripe user t) = true
      · rw [if_pos ⟨hacc, hsel⟩, ih _ (markPaid_id _ _) hrest]
        simp [hsel]
      · rw [if_neg (fun h => hsel h.2), ih _ hacc hrest]
        simp [hsel]
    · have hne : ¬ acc.id = t.id := fun h => hid (h.symm.trans hacc)
      have hxt : ¬ x = t := fun h => hid (h ▸ rfl)
      rw [if_neg (fun h => hne h.1), ih _ hacc hrest]
      simp [hxt]

/-- The collection after the sweep of `getTransactions`, when `_id` is a key
and the first query and the saves succeed: every selected document is marked
paid, every other document is as before. -/
theorem sweep_store_eq (stripe : StripeClient) (faults : Faults) (clock : Nat → Nat)
    (db : Store) (user : User) (hids : UniqueIds db) (hquery : faults.query 0 = none)
    (hsave : ∀ i, faults.save i = none) :
    (getTransactions stripe faults clock db user).2 =
      db.map fun t => if sweepSelects stripe user t = true then markPaid (clock t.id) t else t := by
  rw [getTransactions_store, hquery]
  simp only
  rw [sweep_loop_eq_map stripe faults clock user hsave]
  apply List.map_congr_left
  intro x hx
  rw [sweep_effect_on stripe clock user x _ x rfl]
  · by_cases hp : (x.user_id == user.id && x.status == Status.PENDING) = true
    · have : x ∈ List.filter (fun t => t.user_id == user.id && t.status == Status.PENDING) db :=
        List.mem_filter.2 ⟨hx, hp⟩
      simp only [sweepSelects, this, true_and, hp, Bool.true_and, Bool.and_assoc]
    · have : ¬ x ∈ List.filter (fun t => t.user_id == user.id && t.status == Status.PENDING) db :=
        fun h => hp (List.mem_filter.1 h).2
      have hp' : (x.user_id == user.id && x.status == Status.PENDING) = false := by
        simpa using hp
      simp only [sweepSelects, this, false_and, if_false, hp', Bool.false_and, Bool.and_assoc]
      simp
  · intro t ht hid
    exact List.inj_on_of_nodup_map hids (List.mem_filter.1 ht).1 hx hid

/-- Looking a document up by `_id` in a mapped collection, when the map keeps
every `_id` and `_id` is a key. -/
theorem findById_map (db : Store) (f : Transaction → Transaction) (hf : ∀ x, (f x).id = x.id)
    (hids : UniqueIds db) (t : Transaction) (ht : t ∈ db) :
    findById (db.map f) t.id = some (f t) := by
  unfold findById
  rw [List.find?_map]
  have : db.find? ((fun x => x.id == t.id) ∘ f) = some t := by
    induction db with
    | nil => cases ht
    | cons a rest ih =>
      by_cases hat : a = t
      · subst hat; simp [List.find?_cons, hf]
      · have htr : t ∈ rest := by
          rcases List.mem_cons.1 ht with h | h
          · exact absurd h.symm hat
          · exact h
        have haid : ¬ a.id = t.id := by
          intro h
          exact hat (List.inj_on_of_nodup_map hids (List.mem_cons_self _ _) ht h)
        have hr : UniqueIds rest := by
          unfold UniqueIds at hids ⊢
          simp only [List.map_cons, List.nodup_cons] at hids
          exact hids.2
        simp [List.find?_cons, hf, haid, ih hr htr]
  rw [this]; rfl

theorem sweepSelects_iff (stripe : StripeClient) (user : User) (t : Transaction) :
    sweepSelects stripe user t = true ↔ SweepCondition stripe user t := by
  unfold sweepSelects SweepCondition paidSessionFound
  cases h : stripe.sessionsList t.stripe_payment_link_id 5 user.stripe_account_id with
  | error e => simp
  | ok sessions => simp [and_assoc]

/-- Looking up `i` after the documents with `_id` `i` were replaced by `d`. -/
theorem findById_replace (db : Store) (i : Nat) (d : Transaction) (hd : d.id = i)
    (h : ∃ x ∈ db, x.id = i) :
    findById (db.map fun x => if x.id = i then d else x) i = some d := by
  unfold findById
  induction db with
  | nil => obtain ⟨x, hx, _⟩ := h; cases hx
  | cons a rest ih =>
    by_cases ha : a.id = i
    · simp [List.find?_cons, ha, hd]
    · have hr : ∃ x ∈ rest, x.id = i := by
        obtain ⟨x, hx, hxi⟩ := h
        rcases List.mem_cons.1 hx with h1 | h1
        · subst h1; exact absurd hxi ha
        · exact ⟨x, h1, hxi⟩
      simpa [List.find?_cons, ha] using ih hr

/-- When payment link ids identify documents, `findOne` by the link of a
stored document returns that document. -/
theorem find_by_link_unique (db : Store) (t : Transaction) (hlinks : UniqueLinks db)
    (ht : t ∈ db) :
    db.find? (fun x => x.stripe_payment_link_id == t.stripe_payment_link_id) = some t := by
  induction db with
  | nil => cases ht
  | cons a rest ih =>
    unfold UniqueLinks at hlinks
    simp only [List.map_cons, List.nodup_cons] at hlinks
    by_cases hat : a = t
    · subst hat; simp [List.find?_cons]
    · have htr : t ∈ rest := by
        rcases List.mem_cons.1 ht with h | h
        · exact absurd h.symm hat
        · exact h
      have hne : ¬ a.stripe_payment_link_id = t.stripe_payment_link_id := by
        intro h
        exact hlinks.1 (h ▸ List.mem_map_of_mem _ htr)
      simpa [List.find?_cons, hne] using ih hlinks.2 htr

/-- The webhook handler on a verified `checkout.session.completed` event whose
payment link finds `t`, with a driver that does not fail. -/
theorem webhook_eq_of_found (stripe : StripeClient) (secret : Option String) (faults : Faults)
    (now : Nat) (db : Store) (req : WebhookRequest) (ev : Event) (link : String) (t : Transaction)
    (hverified : stripe.constructEvent req.body req.signature secret = .ok ev)
    (htype : ev.type = "checkout.session.completed")
    (hlink : ev.object.payment_link = some link) (hne : link ≠ "")
    (hquery : faults.query 0 = none) (hsave : faults.save t.id = none)
    (hfind : db.find? (fun x => x.stripe_payment_link_id == link) = some t) :
    handleStripeWebhook stripe secret faults now db req =
      (⟨200, Body.empty⟩, db.map fun x => if x.id = t.id then markPaid now t else x) := by
  unfold handleStripeWebhook
  simp [hverified, htype, hlink, truthy, hne, Transaction.findOne, hquery, hfind,
    Transaction.save, hsave, markPaid_id]

/-- The webhook handler answers 200 exactly when verification succeeds and 400
exactly when it fails. -/
theorem webhook_response (stripe : StripeClient) (secret : Option String) (faults : Faults)
    (now : Nat) (db : Store) (req : WebhookRequest) :
    (handleStripeWebhook stripe secret faults now db req).1 =
      match stripe.constructEvent req.body req.signature secret with
      | .ok _ => ⟨200, Body.empty⟩
      | .error message => ⟨400, Body.text ("Webhook Error: " ++ message)⟩ := by
  unfold handleStripeWebhook
  cases stripe.constructEvent req.body req.signature secret <;> rfl

/-! ## The claims -/

/-- C1 (idempotency of the paid transition on duplicate webhook delivery).
The handler has no test of the current status: delivering the same verified
`checkout.session.completed` event twice to the `PENDING` transaction `coffee`
leaves it `PAID` after the first delivery with the history
`[PENDING, PAID]`, and the second delivery appends a second `PAID` entry
(history of length 3) instead of leaving the history unchanged. -/
theorem webhook_duplicate_delivery_appends_again :
    (handleStripeWebhook Fixture.stripe none Faults.none 200 [Fixture.coffee]
        ⟨"plink_1", some "sig_ok"⟩).2.map (fun t => (t.status, historyStatuses t))
      = [(Status.PAID, [Status.PENDING, Status.PAID])] ∧
    (handleStripeWebhook Fixture.stripe none Faults.none 300
        (handleStripeWebhook Fixture.stripe none Faults.none 200 [Fixture.coffee]
          ⟨"plink_1", some "sig_ok"⟩).2
        ⟨"plink_1", some "sig_ok"⟩).2.map (fun t => (t.status, historyStatuses t))
      = [(Status.PAID, [Status.PENDING, Status.PAID, Status.PAID])] := by
  decide

/-- C2 (monotonicity).  A verified `checkout.session.completed` event for the
payment link of the `CANCELLED` transaction `refundedJuice` makes it `PAID`
and appends a `PAID` entry after its `CANCELLED` one, while both sweeps leave
it as it is. -/
theorem webhook_marks_cancelled_paid :
    Fixture.refundedJuice.status = Status.CANCELLED ∧
    (handleStripeWebhook Fixture.stripe none Faults.none 300 [Fixture.refundedJuice]
        ⟨"plink_4", some "sig_ok"⟩).2.map (fun t => (t.status, historyStatuses t))
      = [(Status.PAID, [Status.PENDING, Status.CANCELLED, Status.PAID])] ∧
    (getTransactions Fixture.stripe Faults.none Fixture.clock [Fixture.refundedJuice]
        Fixture.alice).2 = [Fixture.refundedJuice] ∧
    (getMetrics Fixture.stripe Faults.none Fixture.clock [Fixture.refundedJuice]
        Fixture.alice).2 = [Fixture.refundedJuice] := by
  decide

/-- C3 (history invariant).  If every stored transaction has a non-empty
history whose last entry carries the transaction's status, then the same holds
for every transaction of the store after `createPaymentLink`, after
`handleStripeWebhook`, after `getTransactions` and after `getMetrics`; and a
transaction that `createPaymentLink` returns is stored, is `PENDING`, has the
history `[PENDING]` and satisfies the invariant. -/
theorem history_invariant_preserved (stripe : StripeClient) (rt : Runtime) (faults : Faults)
    (newId now : Nat) (clock : Nat → Nat) (secret : Option String) (db : Store)
    (creq : CreateLinkRequest) (wreq : WebhookRequest) (user : User)
    (hinv : ∀ t ∈ db, HistoryInv t) :
    (∀ t, (createPaymentLink stripe rt faults newId now db creq).1.body = Body.transaction t →
      t ∈ (createPaymentLink stripe rt faults newId now db creq).2 ∧
      t.status = Status.PENDING ∧ historyStatuses t = [Status.PENDING] ∧ HistoryInv t) ∧
    (∀ t ∈ (createPaymentLink stripe rt faults newId now db creq).2, HistoryInv t) ∧
    (∀ t ∈ (handleStripeWebhook stripe secret faults now db wreq).2, HistoryInv t) ∧
    (∀ t ∈ (getTransactions stripe faults clock db user).2, HistoryInv t) ∧
    (∀ t ∈ (getMetrics stripe faults clock db user).2, HistoryInv t) := by
  have hsweep : ∀ t ∈ (getTransactions stripe faults clock db user).2, HistoryInv t := by
    rw [getTransactions_store]
    cases faults.query 0 with
    | some e => exact hinv
    | none => exact sweep_loop_preserves HistoryInv markPaid_historyInv stripe faults clock user _ db hinv
  refine ⟨?_, ?_, ?_, hsweep, ?_⟩
  · intro t hbody
    rcases createPaymentLink_cases stripe rt faults newId now db creq with
      ⟨_, _, m, hm⟩ | ⟨t', heq, _, _, hst, hh, _⟩
    · rw [hm] at hbody; cases hbody
    · rw [heq] at hbody ⊢
      simp only [Body.transaction.injEq] at hbody
      subst hbody
      refine ⟨by simp, hst, by simp [historyStatuses, hh], ?_⟩
      simp [HistoryInv, hh, hst]
  · intro t ht
    rcases createPaymentLink_cases stripe rt faults newId now db creq with
      ⟨hdb, _, _⟩ | ⟨t', heq, _, _, hst, hh, _⟩
    · rw [hdb] at ht; exact hinv t ht
    · rw [heq] at ht
      rcases List.mem_append.1 ht with h | h
      · exact hinv t h
      · simp only [List.mem_singleton] at h
        subst h
        simp [HistoryInv, hh, hst]
  · intro t ht
    rcases webhook_store_cases stripe secret faults now db wreq with h | ⟨_, _, d, _, _, _, _, _, _, _, h⟩
    · rw [h] at ht; exact hinv t ht
    · rw [h] at ht
      rcases List.mem_map.1 ht with ⟨y, hy, rfl⟩
      by_cases hid : y.id = d.id
      · simp only [hid, if_true]; exact markPaid_historyInv _ _
      · simp only [hid, if_false]; exact hinv y hy
  · rw [getMetrics_store]; exact hsweep

/-- An instance of the history invariant theorem: `createPaymentLink` answers
201 there, so a transaction is created. -/
theorem history_invariant_preserved_witness :
    (∀ t ∈ [Fixture.coffee, Fixture.refundedJuice], HistoryInv t) ∧
    (createPaymentLink Fixture.stripe Fixture.runtime Faults.none 9 500
      [Fixture.coffee, Fixture.refundedJuice] Fixture.createRequest).1.status = 201 ∧
    ((∀ t, (createPaymentLink Fixture.stripe Fixture.runtime Faults.none 9 500
        [Fixture.coffee, Fixture.refundedJuice] Fixture.createRequest).1.body = Body.transaction t →
      t ∈ (createPaymentLink Fixture.stripe Fixture.runtime Faults.none 9 500
        [Fixture.coffee, Fixture.refundedJuice] Fixture.createRequest).2 ∧
      t.status = Status.PENDING ∧ historyStatuses t = [Status.PENDING] ∧ HistoryInv t) ∧
    (∀ t ∈ (createPaymentLink Fixture.stripe Fixture.runtime Faults.none 9 500
        [Fixture.coffee, Fixture.refundedJuice] Fixture.createRequest).2, HistoryInv t) ∧
    (∀ t ∈ (handleStripeWebhook Fixture.stripe none Faults.none 500
        [Fixture.coffee, Fixture.refundedJuice] ⟨"plink_1", some "sig_ok"⟩).2, HistoryInv t) ∧
    (∀ t ∈ (getTransactions Fixture.stripe Faults.none Fixture.clock
        [Fixture.coffee, Fixture.refundedJuice] Fixture.alice).2, HistoryInv t) ∧
    (∀ t ∈ (getMetrics Fixture.stripe Faults.none Fixture.clock
        [Fixture.coffee, Fixture.refundedJuice] Fixture.alice).2, HistoryInv t)) :=
  ⟨by decide, by decide,
    history_invariant_preserved Fixture.stripe Fixture.runtime Faults.none 9 500 Fixture.clock none
      [Fixture.coffee, Fixture.refundedJuice] Fixture.createRequest ⟨"plink_1", some "sig_ok"⟩
      Fixture.alice (by decide)⟩

/-- C4 (sweep then webhook).  The sweep of `getTransactions` finds the paid
session of `coffee` and marks it `PAID` with the history `[PENDING, PAID]`; the
verified `checkout.session.completed` webhook that follows is not a no-op: it
appends a second `PAID` entry. -/
theorem webhook_after_sweep_appends_again :
    (getTransactions Fixture.stripe Faults.none Fixture.clock [Fixture.coffee]
        Fixture.alice).2.map (fun t => (t.status, historyStatuses t))
      = [(Status.PAID, [Status.PENDING, Status.PAID])] ∧
    (handleStripeWebhook Fixture.stripe none Faults.none 300
        (getTransactions Fixture.stripe Faults.none Fixture.clock [Fixture.coffee] Fixture.alice).2
        ⟨"plink_1", some "sig_ok"⟩).2.map (fun t => (t.status, historyStatuses t))
      = [(Status.PAID, [Status.PENDING, Status.PAID, Status.PAID])] := by
  decide

/-- C5 (webhook-driven transition).  In a store whose payment link ids
identify transactions, for a `PENDING` transaction `t` with history `h`, a
verified `checkout.session.completed` event whose non-empty `payment_link` is
`t`'s `stripe_payment_link_id` is acknowledged with 200 and leaves `t` with
status `PAID` and history `h` followed by exactly one `PAID` entry, provided
the lookup and the save of the driver succeed. -/
theorem webhook_marks_pending_paid (stripe : StripeClient) (secret : Option String)
    (faults : Faults) (now : Nat) (db : Store) (req : WebhookRequest) (ev : Event)
    (t : Transaction) (hlinks : UniqueLinks db) (ht : t ∈ db)
    (hpending : t.status = Status.PENDING)
    (hverified : stripe.constructEvent req.body req.signature secret = .ok ev)
    (htype : ev.type = "checkout.session.completed")
    (hlink : ev.object.payment_link = some t.stripe_payment_link_id)
    (hnonempty : t.stripe_payment_link_id ≠ "")
    (hquery : faults.query 0 = none) (hsave : faults.save t.id = none) :
    (handleStripeWebhook stripe secret faults now db req).1.status = 200 ∧
    ∃ t', findById (handleStripeWebhook stripe secret faults now db req).2 t.id = some t' ∧
      t'.status = Status.PAID ∧ t'.history = t.history ++ [⟨Status.PAID, now⟩] ∧
      historyStatuses t' = historyStatuses t ++ [Status.PAID] := by
  have _ := hpending
  rw [webhook_eq_of_found stripe secret faults now db req ev _ t hverified htype hlink hnonempty
    hquery hsave (find_by_link_unique db t hlinks ht)]
  refine ⟨rfl, markPaid now t, ?_, rfl, rfl, ?_⟩
  · exact findById_replace db t.id (markPaid now t) rfl ⟨t, ht, rfl⟩
  · simp [historyStatuses, markPaid]

/-- An instance of the webhook transition: `coffee`, with history `[PENDING]`,
in a store of three transactions. -/
theorem webhook_marks_pending_paid_witness :
    (handleStripeWebhook Fixture.stripe none Faults.none 300
      [Fixture.tea, Fixture.coffee, Fixture.cake] ⟨"plink_1", some "sig_ok"⟩).1.status = 200 ∧
    ∃ t', findById (handleStripeWebhook Fixture.stripe none Faults.none 300
        [Fixture.tea, Fixture.coffee, Fixture.cake] ⟨"plink_1", some "sig_ok"⟩).2
        Fixture.coffee.id = some t' ∧
      t'.status = Status.PAID ∧ t'.history = Fixture.coffee.history ++ [⟨Status.PAID, 300⟩] ∧
      historyStatuses t' = historyStatuses Fixture.coffee ++ [Status.PAID] :=
  webhook_marks_pending_paid Fixture.stripe none Faults.none 300
    [Fixture.tea, Fixture.coffee, Fixture.cake] ⟨"plink_1", some "sig_ok"⟩
    ⟨"checkout.session.completed", ⟨"cs_1", some "plink_1", "paid"⟩⟩ Fixture.coffee
    (by decide) (by decide) (by decide) rfl (by decide) (by decide) (by decide)
    (by decide) (by decide)

/-- C6 (signature failure rejects without mutation).  When `constructEvent`
throws an error with message `m`, the handler answers 400 with the body
`Webhook Error: ` followed by `m`, and the store after the call is the store
before it. -/
theorem webhook_rejects_unverified (stripe : StripeClient) (secret : Option String)
    (faults : Faults) (now : Nat) (db : Store) (req : WebhookRequest) (m : String)
    (hfail : stripe.constructEvent req.body req.signature secret = .error m) :
    (handleStripeWebhook stripe secret faults now db req).1.status = 400 ∧
    (handleStripeWebhook stripe secret faults now db req).1.body =
      Body.text ("Webhook Error: " ++ m) ∧
    (handleStripeWebhook stripe secret faults now db req).2 = db := by
  unfold handleStripeWebhook
  rw [hfail]
  exact ⟨rfl, rfl, rfl⟩

/-- An instance of the rejection: a request without a valid signature, against
a store holding the `PENDING` transaction `coffee`. -/
theorem webhook_rejects_unverified_witness :
    (handleStripeWebhook Fixture.stripe none Faults.none 300 [Fixture.coffee]
      ⟨"plink_1", some "forged"⟩).1.status = 400 ∧
    (handleStripeWebhook Fixture.stripe none Faults.none 300 [Fixture.coffee]
      ⟨"plink_1", some "forged"⟩).1.body =
      Body.text ("Webhook Error: " ++
        "No signatures found matching the expected signature for payload.") ∧
    (handleStripeWebhook Fixture.stripe none Faults.none 300 [Fixture.coffee]
      ⟨"plink_1", some "forged"⟩).2 = [Fixture.coffee] :=
  webhook_rejects_unverified Fixture.stripe none Faults.none 300 [Fixture.coffee]
    ⟨"plink_1", some "forged"⟩ _ rfl

/-- C7 (webhook acknowledgement).  Whatever the store, the event and the
failures of the database driver, the handler answers 200 with an empty body if
and only if signature verification succeeds; its status is outside 200..299 if
and only if verification fails, and then it is 400. -/
theorem webhook_acknowledges_iff_verified (stripe : StripeClient) (secret : Option String)
    (faults : Faults) (now : Nat) (db : Store) (req : WebhookRequest) :
    ((handleStripeWebhook stripe secret faults now db req).1 = ⟨200, Body.empty⟩ ↔
      ∃ ev, stripe.constructEvent req.body req.signature secret = .ok ev) ∧
    (¬ (200 ≤ (handleStripeWebhook stripe secret faults now db req).1.status ∧
        (handleStripeWebhook stripe secret faults now db req).1.status < 300) ↔
      ∃ m, stripe.constructEvent req.body req.signature secret = .error m) ∧
    ((handleStripeWebhook stripe secret faults now db req).1.status = 400 ↔
      ∃ m, stripe.constructEvent req.body req.signature secret = .error m) := by
  rw [webhook_response]
  cases stripe.constructEvent req.body req.signature secret with
  | ok ev => simp
  | error m => simp

/-- C8 (unmatched webhook events do not mutate).  For a verified event that is
not of type `checkout.session.completed`, or whose `payment_link` is empty or
absent, or whose `payment_link` is the `stripe_payment_link_id` of no stored
transaction, the store after the handler is the store before it, and the
request is acknowledged with 200. -/
theorem webhook_unmatched_event_no_mutation (stripe : StripeClient) (secret : Option String)
    (faults : Faults) (now : Nat) (db : Store) (req : WebhookRequest) (ev : Event)
    (hverified : stripe.constructEvent req.body req.signature secret = .ok ev)
    (hunmatched : ev.type ≠ "checkout.session.completed" ∨
      (ev.object.payment_link = none ∨ ev.object.payment_link = some "") ∨
      ∀ t ∈ db, ev.object.payment_link ≠ some t.stripe_payment_link_id) :
    handleStripeWebhook stripe secret faults now db req = (⟨200, Body.empty⟩, db) := by
  have hresp := webhook_response stripe secret faults now db req
  rw [hverified] at hresp
  refine Prod.ext hresp ?_
  rcases webhook_store_cases stripe secret faults now db req with h | ⟨ev', link, t, hv, hty, hl, hne, _, _, hfind, _⟩
  · exact h
  · rw [hverified] at hv
    cases hv
    exfalso
    rcases hunmatched with h | h | h
    · exact h hty
    · rcases h with h | h
      · rw [h] at hl; cases hl
      · rw [h] at hl; cases hl; exact hne rfl
    · have hmem := List.mem_of_find?_eq_some hfind
      have hp := List.find?_some hfind
      simp only [beq_iff_eq] at hp
      exact h t hmem (by rw [hl, hp])

/-- An instance of the frame property: a verified event for a payment link
that no stored transaction carries. -/
theorem webhook_unmatched_event_no_mutation_witness :
    handleStripeWebhook Fixture.stripe none Faults.none 300 [Fixture.coffee, Fixture.tea]
      ⟨"plink_404", some "sig_ok"⟩ = (⟨200, Body.empty⟩, [Fixture.coffee, Fixture.tea]) :=
  webhook_unmatched_event_no_mutation Fixture.stripe none Faults.none 300
    [Fixture.coffee, Fixture.tea] ⟨"plink_404", some "sig_ok"⟩
    ⟨"checkout.session.completed", ⟨"cs_1", some "plink_404", "paid"⟩⟩ rfl
    (Or.inr (Or.inr (by decide)))

/-- C9 (lazy-sync sweep postcondition).  With `_id` a key of the collection
and a driver whose first query and saves succeed, the sweep of
`getTransactions` for `user` adds and removes no document, and for every
stored transaction `t`: `t` is changed if and only if it was owned by `user`,
`PENDING`, with a non-empty payment link id, and its session lookup succeeded
with at least one session whose `payment_status` is `'paid'`; in that case it
ends `PAID` with exactly one `PAID` entry appended to its history; otherwise it
is unchanged. -/
theorem getTransactions_sweep_postcondition (stripe : StripeClient) (faults : Faults)
    (clock : Nat → Nat) (db : Store) (user : User) (hids : UniqueIds db)
    (hquery : faults.query 0 = none) (hsave : ∀ i, faults.save i = none) :
    (getTransactions stripe faults clock db user).2.map Transaction.id = db.map Transaction.id ∧
    ∀ t ∈ db,
      (findById (getTransactions stripe faults clock db user).2 t.id ≠ some t ↔
        SweepCondition stripe user t) ∧
      (SweepCondition stripe user t →
        ∃ t', findById (getTransactions stripe faults clock db user).2 t.id = some t' ∧
          t'.status = Status.PAID ∧
          t'.history = t.history ++ [⟨Status.PAID, clock t.id⟩]) ∧
      (¬ SweepCondition stripe user t →
        findById (getTransactions stripe faults clock db user).2 t.id = some t) := by
  rw [sweep_store_eq stripe faults clock db user hids hquery hsave]
  have hf : ∀ x : Transaction,
      (if sweepSelects stripe user x = true then markPaid (clock x.id) x else x).id = x.id := by
    intro x; split <;> rfl
  refine ⟨?_, ?_⟩
  · rw [List.map_map]
    exact List.map_congr_left fun x _ => hf x
  · intro t ht
    rw [findById_map db _ hf hids t ht, ← sweepSelects_iff]
    by_cases hsel : sweepSelects stripe user t = true
    · simp only [hsel, if_true]
      exact ⟨⟨fun _ => trivial, fun _ h => markPaid_ne _ _ (Option.some.inj h)⟩,
        fun _ => ⟨_, rfl, rfl, rfl⟩, fun h => absurd trivial h⟩
    · simp only [hsel, if_false]
      exact ⟨⟨fun h => absurd rfl h, fun h => absurd h (by simp)⟩,
        fun h => absurd h (by simp), fun _ => rfl⟩

/-- An instance of the sweep postcondition: `coffee` is selected, `tea` (lookup
fails), `cake` (another owner) and `refundedJuice` (not pending) are not. -/
theorem getTransactions_sweep_postcondition_witness :
    (getTransactions Fixture.stripe Faults.none Fixture.clock
        [Fixture.tea, Fixture.coffee, Fixture.cake, Fixture.refundedJuice]
        Fixture.alice).2.map Transaction.id =
      [Fixture.tea, Fixture.coffee, Fixture.cake, Fixture.refundedJuice].map Transaction.id ∧
    ∀ t ∈ [Fixture.tea, Fixture.coffee, Fixture.cake, Fixture.refundedJuice],
      (findById (getTransactions Fixture.stripe Faults.none Fixture.clock
          [Fixture.tea, Fixture.coffee, Fixture.cake, Fixture.refundedJuice]
          Fixture.alice).2 t.id ≠ some t ↔
        SweepCondition Fixture.stripe Fixture.alice t) ∧
      (SweepCondition Fixture.stripe Fixture.alice t →
        ∃ t', findById (getTransactions Fixture.stripe Faults.none Fixture.clock
            [Fixture.tea, Fixture.coffee, Fixture.cake, Fixture.refundedJuice]
            Fixture.alice).2 t.id = some t' ∧
          t'.status = Status.PAID ∧
          t'.history = t.history ++ [⟨Status.PAID, Fixture.clock t.id⟩]) ∧
      (¬ SweepCondition Fixture.stripe Fixture.alice t →
        findById (getTransactions Fixture.stripe Faults.none Fixture.clock
          [Fixture.tea, Fixture.coffee, Fixture.cake, Fixture.refundedJuice]
          Fixture.alice).2 t.id = some t) :=
  getTransactions_sweep_postcondition Fixture.stripe Faults.none Fixture.clock
    [Fixture.tea, Fixture.coffee, Fixture.cake, Fixture.refundedJuice] Fixture.alice
    (by decide) rfl (fun _ => rfl)

/-- C10 (sweep isolation).  With `_id` a key of the collection and a driver
whose first query and saves succeed: if `X` and `Y` are `PENDING` transactions
of the requesting user, the session lookup for `X` throws, and the lookup for
`Y` returns a paid session, then after the sweep of `getTransactions` and
after the sweep of `getMetrics`, wherever `X` and `Y` stand in the iteration
order, `Y` is `PAID` with exactly one `PAID` entry appended to its history and
`X` is unchanged, still `PENDING`. -/
theorem sweep_isolation (stripe : StripeClient) (faults : Faults) (clock : Nat → Nat)
    (db : Store) (user : User) (X Y : Transaction) (e : String)
    (hids : UniqueIds db) (hquery : faults.query 0 = none) (hsave : ∀ i, faults.save i = none)
    (hX : X ∈ db) (hXowner : X.user_id = user.id) (hXpending : X.status = Status.PENDING)
    (hXfails : stripe.sessionsList X.stripe_payment_link_id 5 user.stripe_account_id = .error e)
    (hY : Y ∈ db) (hYowner : Y.user_id = user.id) (hYpending : Y.status = Status.PENDING)
    (hYlink : Y.stripe_payment_link_id ≠ "")
    (hYpaid : ∃ sessions,
      stripe.sessionsList Y.stripe_payment_link_id 5 user.stripe_account_id = .ok sessions ∧
        ∃ s ∈ sessions, s.payment_status = "paid") :
    ((findById (getTransactions stripe faults clock db user).2 X.id = some X ∧
        X.status = Status.PENDING) ∧
      ∃ Y', findById (getTransactions stripe faults clock db user).2 Y.id = some Y' ∧
        Y'.status = Status.PAID ∧ Y'.history = Y.history ++ [⟨Status.PAID, clock Y.id⟩]) ∧
    ((findById (getMetrics stripe faults clock db user).2 X.id = some X ∧
        X.status = Status.PENDING) ∧
      ∃ Y', findById (getMetrics stripe faults clock db user).2 Y.id = some Y' ∧
        Y'.status = Status.PAID ∧ Y'.history = Y.history ++ [⟨Status.PAID, clock Y.id⟩]) := by
  have _ := hXowner
  have hf : ∀ x : Transaction,
      (if sweepSelects stripe user x = true then markPaid (clock x.id) x else x).id = x.id := by
    intro x; split <;> rfl
  have hselX : ¬ sweepSelects stripe user X = true := by
    rw [sweepSelects_iff]
    rintro ⟨_, _, _, sessions, hs, _⟩
    rw [hXfails] at hs
    cases hs
  have hselY : sweepSelects stripe user Y = true :=
    (sweepSelects_iff stripe user Y).2 ⟨hYowner, hYpending, hYlink, hYpaid⟩
  have main : (findById (getTransactions stripe faults clock db user).2 X.id = some X ∧
      X.status = Status.PENDING) ∧
      ∃ Y', findById (getTransactions stripe faults clock db user).2 Y.id = some Y' ∧
        Y'.status = Status.PAID ∧ Y'.history = Y.history ++ [⟨Status.PAID, clock Y.id⟩] := by
    rw [sweep_store_eq stripe faults clock db user hids hquery hsave,
      findById_map db _ hf hids X hX, findById_map db _ hf hids Y hY]
    simp only [hselX, hselY, if_true, if_false]
    exact ⟨⟨rfl, hXpending⟩, _, rfl, rfl, rfl⟩
  refine ⟨main, ?_⟩
  rw [getMetrics_store]
  exact main

/-- An instance of sweep isolation with the failing transaction `tea` swept
before the paid transaction `coffee`. -/
theorem sweep_isolation_witness :
    ((findById (getTransactions Fixture.stripe Faults.none Fixture.clock
          [Fixture.tea, Fixture.coffee] Fixture.alice).2 Fixture.tea.id = some Fixture.tea ∧
        Fixture.tea.status = Status.PENDING) ∧
      ∃ Y', findById (getTransactions Fixture.stripe Faults.none Fixture.clock
          [Fixture.tea, Fixture.coffee] Fixture.alice).2 Fixture.coffee.id = some Y' ∧
        Y'.status = Status.PAID ∧
        Y'.history = Fixture.coffee.history ++ [⟨Status.PAID, Fixture.clock Fixture.coffee.id⟩]) ∧
    ((findById (getMetrics Fixture.stripe Faults.none Fixture.clock
          [Fixture.tea, Fixture.coffee] Fixture.alice).2 Fixture.tea.id = some Fixture.tea ∧
        Fixture.tea.status = Status.PENDING) ∧
      ∃ Y', findById (getMetrics Fixture.stripe Faults.none Fixture.clock
          [Fixture.tea, Fixture.coffee] Fixture.alice).2 Fixture.coffee.id = some Y' ∧
        Y'.status = Status.PAID ∧
        Y'.history = Fixture.coffee.history ++ [⟨Status.PAID, Fixture.clock Fixture.coffee.id⟩]) :=
  sweep_isolation Fixture.stripe Faults.none Fixture.clock [Fixture.tea, Fixture.coffee]
    Fixture.alice Fixture.tea Fixture.coffee "An error occurred with our connection to Stripe."
    (by decide) rfl (fun _ => rfl) (by decide) (by decide) (by decide) rfl
    (by decide) (by decide) (by decide) (by decide)
    ⟨[⟨"cs_0", some "plink_1", "unpaid"⟩, ⟨"cs_1", some "plink_1", "paid"⟩], rfl,
      ⟨"cs_1", some "plink_1", "paid"⟩, by decide, rfl⟩

/-! ## Lemmas for the reads, the frame and the comparison of sweeps -/

/-- When no addition rounds, the rounded sum from `acc` is the exact one. -/
theorem foldl_numberPlus_exact (l : List ℚ) :
    ∀ acc : ℚ, (∀ k, k ≤ l.length → roundDouble (acc + (l.take k).sum) = acc + (l.take k).sum) →
      l.foldl numberPlus acc = acc + l.sum := by
  induction l with
  | nil => intro acc _; simp
  | cons a rest ih =>
    intro acc h
    have h1 : numberPlus acc a = acc + a := by
      have := h 1 (by simp)
      simpa [numberPlus] using this
    simp only [List.foldl_cons, List.sum_cons]
    rw [h1, ih (acc + a), add_assoc]
    intro k hk
    have := h (k + 1) (by simpa using hk)
    simpa [add_assoc] using this

/-- When no addition rounds, `numberSum` is the exact sum. -/
theorem numberSum_exact (l : List ℚ) (h : NoRounding l) : numberSum l = l.sum := by
  have := foldl_numberPlus_exact l 0 (by simpa [NoRounding] using h)
  simpa [numberSum] using this

/-- When both queries succeed, `getTransactions` answers 200 with the
transactions of the user in the collection after the sweep, newest first. -/
theorem getTransactions_response (stripe : StripeClient) (faults : Faults) (clock : Nat → Nat)
    (db : Store) (user : User) (h0 : faults.query 0 = none) (h1 : faults.query 1 = none) :
    (getTransactions stripe faults clock db user).1 =
      ⟨200, Body.transactions
        (sortByCreatedAtDesc (ownedBy user (getTransactions stripe faults clock db user).2))⟩ := by
  simp only [getTransactions, Transaction.find, h0, h1, ownedBy]

/-- When both queries succeed, `getMetrics` answers 200 with the metrics of the
user on the collection after the sweep. -/
theorem getMetrics_response (stripe : StripeClient) (faults : Faults) (clock : Nat → Nat)
    (db : Store) (user : User) (h0 : faults.query 0 = none) (h1 : faults.query 1 = none) :
    (getMetrics stripe faults clock db user).1 =
      ⟨200, metricsOf user (getMetrics stripe faults clock db user).2⟩ := by
  simp only [getMetrics, Transaction.find, h0, h1, metricsOf, paidOf, ownedBy, numberSum,
    List.foldl_map]

/-- Looking up another `_id` after the documents with `_id` `j` were replaced. -/
theorem findById_replace_ne (db : Store) (i j : Nat) (d : Transaction) (hd : d.id = j)
    (hij : i ≠ j) :
    findById (db.map fun x => if x.id = j then d else x) i = findById db i := by
  unfold findById
  induction db with
  | nil => rfl
  | cons a rest ih =>
    simp only [List.map_cons, List.find?_cons]
    by_cases ha : a.id = j
    · have hai : (a.id == i) = false := by
        simpa using fun h : a.id = i => hij (h.symm.trans ha)
      have hdi : (d.id == i) = false := by
        simpa using fun h : d.id = i => hij (h.symm.trans hd)
      rw [if_pos ha, hai, hdi]
      exact ih
    · rw [if_neg ha]
      cases hai : a.id == i with
      | true => rfl
      | false => exact ih

/-- Replacing the documents with the `_id` of a stored document by its paid
state keeps the relation `OnlyMarkedPaid`. -/
theorem onlyMarkedPaid_replace (db cur : Store) (hids : UniqueIds db) (p : Transaction)
    (hp : p ∈ db) (now : Nat) (h : OnlyMarkedPaid db cur) :
    OnlyMarkedPaid db (cur.map fun x => if x.id = p.id then markPaid now p else x) := by
  obtain ⟨hmap, hall⟩ := h
  refine ⟨?_, ?_⟩
  · rw [← hmap, List.map_map]
    apply List.map_congr_left
    intro x _
    by_cases hx : x.id = p.id
    · simp [hx, markPaid_id]
    · simp [hx]
  · intro t ht
    by_cases hid : t.id = p.id
    · have htp : t = p := List.inj_on_of_nodup_map hids ht hp hid
      subst htp
      right
      refine ⟨now, findById_replace cur t.id (markPaid now t) rfl ?_⟩
      rcases hall t ht with h1 | ⟨c, h1⟩
      · exact ⟨t, List.mem_of_find?_eq_some h1, rfl⟩
      · exact ⟨markPaid c t, List.mem_of_find?_eq_some h1, rfl⟩
    · rw [findById_replace_ne cur t.id p.id (markPaid now p) rfl hid]
      exact hall t ht

theorem onlyMarkedPaid_refl (db : Store) (hids : UniqueIds db) : OnlyMarkedPaid db db := by
  refine ⟨rfl, fun t ht => Or.inl ?_⟩
  have := findById_map db id (fun _ => rfl) hids t ht
  simpa using this

/-- The webhook handler adds and removes no document and leaves every document
as it was or marks it paid, whatever the driver does. -/
theorem webhook_onlyMarkedPaid (stripe : StripeClient) (secret : Option String)
    (faults : Faults) (now : Nat) (db : Store) (req : WebhookRequest) (hids : UniqueIds db) :
    OnlyMarkedPaid db (handleStripeWebhook stripe secret faults now db req).2 := by
  rcases webhook_store_cases stripe secret faults now db req with
    h | ⟨_, _, t, _, _, _, _, _, _, hfind, h⟩
  · rw [h]; exact onlyMarkedPaid_refl db hids
  · rw [h]
    exact onlyMarkedPaid_replace db db hids t (List.mem_of_find?_eq_some hfind) now
      (onlyMarkedPaid_refl db hids)

/-- The sweep of `getTransactions` adds and removes no document and leaves
every document as it was or marks it paid, whatever the driver does. -/
theorem sweep_onlyMarkedPaid (stripe : StripeClient) (faults : Faults) (clock : Nat → Nat)
    (db : Store) (user : User) (hids : UniqueIds db) :
    OnlyMarkedPaid db (getTransactions stripe faults clock db user).2 := by
  rw [getTransactions_store]
  cases faults.query 0 with
  | some e => exact onlyMarkedPaid_refl db hids
  | none =>
    simp only
    have key : ∀ (pend : List Transaction), (∀ p ∈ pend, p ∈ db) → ∀ cur : Store,
        OnlyMarkedPaid db cur →
        OnlyMarkedPaid db (pend.foldl (getTransactions.syncStep stripe faults clock user) cur) := by
      intro pend
      induction pend with
      | nil => intro _ cur h; exact h
      | cons p rest ih =>
        intro hmem cur h
        simp only [List.foldl_cons]
        apply ih (fun q hq => hmem q (List.mem_cons_of_mem _ hq))
        rcases syncStep_cases stripe faults clock user cur p with h1 | ⟨_, _, h1⟩
        · rw [h1]; exact h
        · rw [h1]
          exact onlyMarkedPaid_replace db cur hids p (hmem p (List.mem_cons_self _ _)) _ h
    exact key _ (fun p hp => (List.mem_filter.1 hp).1) db (onlyMarkedPaid_refl db hids)

/-- One iteration of the sweep, whatever the driver does: a condition that
does not depend on the clock decides whether the swept document is saved. -/
theorem syncStep_eq_ite (stripe : StripeClient) (faults : Faults) (clock : Nat → Nat)
    (user : User) (cur : Store) (t : Transaction) :
    getTransactions.syncStep stripe faults clock user cur t =
      if (t.stripe_payment_link_id != "" && paidSessionFound stripe user t
          && (faults.save t.id).isNone) = true
      then cur.map fun x => if x.id = t.id then markPaid (clock t.id) t else x
      else cur := by
  unfold getTransactions.syncStep paidSessionFound Transaction.save
  by_cases hl : t.stripe_payment_link_id = ""
  · simp [hl]
  · cases hs : stripe.sessionsList t.stripe_payment_link_id 5 user.stripe_account_id with
    | error e => simp [hl]
    | ok sessions =>
      by_cases hp : (sessions.find? fun s => s.payment_status == "paid").isSome = true
      · have hp' : (sessions.any fun s => s.payment_status == "paid") = true := by
          simpa using hp
        cases hsv : faults.save t.id with
        | none => simp [hl, hp, hp', hsv, markPaid_id]
        | some e => simp [hl, hp, hp', hsv, markPaid_id]
      · have hp' : (sessions.any fun s => s.payment_status == "paid") = false := by
          simpa using hp
        simp [hl, hp, hp']

theorem forgetTimestamps_markPaid (c₁ c₂ : Nat) (t : Transaction) :
    forgetTimestamps (markPaid c₁ t) = forgetTimestamps (markPaid c₂ t) := by
  simp [forgetTimestamps, markPaid]

/-- Sweeps that differ only in their clocks leave collections that differ only
in the times of the history entries. -/
theorem sweep_forgetTimestamps (stripe : StripeClient) (faults : Faults) (c₁ c₂ : Nat → Nat)
    (db : Store) (user : User) :
    (getTransactions stripe faults c₁ db user).2.map forgetTimestamps =
      (getTransactions stripe faults c₂ db user).2.map forgetTimestamps := by
  rw [getTransactions_store, getTransactions_store]
  cases faults.query 0 with
  | some e => rfl
  | none =>
    simp only
    have key : ∀ (pend : List Transaction) (cur₁ cur₂ : Store),
        cur₁.map forgetTimestamps = cur₂.map forgetTimestamps →
        (pend.foldl (getTransactions.syncStep stripe faults c₁ user) cur₁).map forgetTimestamps =
          (pend.foldl (getTransactions.syncStep stripe faults c₂ user) cur₂).map
            forgetTimestamps := by
      intro pend
      induction pend with
      | nil => intro cur₁ cur₂ h; exact h
      | cons p rest ih =>
        intro cur₁ cur₂ h
        simp only [List.foldl_cons]
        apply ih
        rw [syncStep_eq_ite, syncStep_eq_ite]
        split
        · have hrep : ∀ (c : Nat) (cur : Store),
              (cur.map fun x => if x.id = p.id then markPaid c p else x).map forgetTimestamps =
                (cur.map forgetTimestamps).map fun y =>
                  if y.1.id = p.id then forgetTimestamps (markPaid 0 p) else y := by
            intro c cur
            rw [List.map_map, List.map_map]
            apply List.map_congr_left
            intro x _
            by_cases hx : x.id = p.id
            · simp only [Function.comp, hx, if_true]
              rw [forgetTimestamps_markPaid c 0]
              simp [forgetTimestamps, hx]
            · simp only [Function.comp, hx, if_false]
              simp [forgetTimestamps, hx]
          rw [hrep (c₁ p.id) cur₁, hrep (c₂ p.id) cur₂, h]
        · exact h
    exact key _ db db rfl

theorem paid_exists_iff (l : List CheckoutSession) :
    (l.find? fun s => s.payment_status == "paid").isSome = true ↔
      ∃ s ∈ l, s.payment_status = "paid" := by
  simp

/-- Session lists that are permutations of each other hold a paid session
together or not at all. -/
theorem sameUpToOrder_samePaidness (r₁ r₂ : Except String (List CheckoutSession))
    (h : SameUpToOrder r₁ r₂) : SamePaidness r₁ r₂ := by
  cases r₁ with
  | error e₁ =>
    cases r₂ with
    | error e₂ => trivial
    | ok l₂ => exact h
  | ok l₁ =>
    cases r₂ with
    | error e₂ => exact h
    | ok l₂ =>
      have hp : l₁.Perm l₂ := h
      show (∃ s ∈ l₁, s.payment_status = "paid") ↔ (∃ s ∈ l₂, s.payment_status = "paid")
      constructor
      · rintro ⟨s, hs, hpaid⟩; exact ⟨s, hp.mem_iff.1 hs, hpaid⟩
      · rintro ⟨s, hs, hpaid⟩; exact ⟨s, hp.mem_iff.2 hs, hpaid⟩

/-- One iteration of the sweep depends on the session lookup only through the
existence of a paid session. -/
theorem syncStep_congr (stripe₁ stripe₂ : StripeClient) (faults : Faults) (clock : Nat → Nat)
    (user : User) (cur : Store) (t : Transaction)
    (h : SamePaidness (stripe₁.sessionsList t.stripe_payment_link_id 5 user.stripe_account_id)
      (stripe₂.sessionsList t.stripe_payment_link_id 5 user.stripe_account_id)) :
    getTransactions.syncStep stripe₁ faults clock user cur t =
      getTransactions.syncStep stripe₂ faults clock user cur t := by
  unfold getTransactions.syncStep
  cases h₁ : stripe₁.sessionsList t.stripe_payment_link_id 5 user.stripe_account_id with
  | error e₁ =>
    cases h₂ : stripe₂.sessionsList t.stripe_payment_link_id 5 user.stripe_account_id with
    | error e₂ => rfl
    | ok l₂ => rw [h₁, h₂] at h; exact absurd h id
  | ok l₁ =>
    cases h₂ : stripe₂.sessionsList t.stripe_payment_link_id 5 user.stripe_account_id with
    | error e₂ => rw [h₁, h₂] at h; exact absurd h id
    | ok l₂ =>
      rw [h₁, h₂] at h
      have hiff : ((l₁.find? fun s => s.payment_status == "paid").isSome = true) ↔
          ((l₂.find? fun s => s.payment_status == "paid").isSome = true) := by
        rw [paid_exists_iff, paid_exists_iff]; exact h
      have hb : (l₁.find? fun s => s.payment_status == "paid").isSome =
          (l₂.find? fun s => s.payment_status == "paid").isSome := by
        cases h1 : (l₁.find? fun s => s.payment_status == "paid").isSome <;>
          cases h2 : (l₂.find? fun s => s.payment_status == "paid").isSome <;>
          simp_all
      simp only [hb]

/-- The two read handlers depend on the session lookups only through the
existence of a paid session. -/
theorem reads_congr (stripe₁ stripe₂ : StripeClient) (faults : Faults) (clock : Nat → Nat)
    (db : Store) (user : User)
    (h : ∀ link, SamePaidness (stripe₁.sessionsList link 5 user.stripe_account_id)
      (stripe₂.sessionsList link 5 user.stripe_account_id)) :
    getTransactions stripe₁ faults clock db user = getTransactions stripe₂ faults clock db user ∧
    getMetrics stripe₁ faults clock db user = getMetrics stripe₂ faults clock db user := by
  have hstep : getTransactions.syncStep stripe₁ faults clock user =
      getTransactions.syncStep stripe₂ faults clock user := by
    funext cur t
    exact syncStep_congr stripe₁ stripe₂ faults clock user cur t (h _)
  unfold getTransactions getMetrics
  rw [getMetrics_syncStep_eq, hstep]
  exact ⟨rfl, rfl⟩

/-- The cast of a truthy amount with numeric value `q` yields `q`. -/
theorem amount_cast (rt : Runtime) (v : JsValue) (q : ℚ) :
    v.truthy = true → v.toNumber rt = some q →
    (match v with
      | .undefined => some none
      | .null => some none
      | .string "" => some none
      | .nan => none
      | v => (v.toNumber rt).map some) = some (some q) := by
  cases v with
  | undefined => intro hamount; cases hamount
  | null => intro hamount; cases hamount
  | nan => intro hamount; cases hamount
  | bool b => intro _ hnumber; simp [hnumber]
  | number a => intro _ hnumber; simp [hnumber]
  | string str =>
    intro hamount hnumber
    have hne : str ≠ "" := by simpa [JsValue.truthy] using hamount
    split
    · rename_i heq; cases heq
    · rename_i heq; cases heq
    · rename_i heq; cases heq; exact absurd rfl hne
    · rename_i heq; cases heq
    · simp [hnumber]

/-- A document of a collection related by `OnlyMarkedPaid` keeps its history
as a prefix, and gains exactly one entry when its status differs. -/
theorem appendOnly_of_onlyMarkedPaid (db after : Store) (h : OnlyMarkedPaid db after)
    (t : Transaction) (ht : t ∈ db) :
    ∃ t', findById after t.id = some t' ∧ t.history <+: t'.history ∧
      (t'.status ≠ t.status → ∃ e, t'.history = t.history ++ [e]) := by
  rcases h.2 t ht with h1 | ⟨now, h1⟩
  · exact ⟨t, h1, ⟨[], by simp⟩, fun hne => absurd rfl hne⟩
  · exact ⟨markPaid now t, h1, ⟨[⟨Status.PAID, now⟩], rfl⟩, fun _ => ⟨⟨Status.PAID, now⟩, rfl⟩⟩

/-- A document of a collection related by `OnlyMarkedPaid` keeps every path
other than `status` and `history`. -/
theorem frame_of_onlyMarkedPaid (db after : Store) (h : OnlyMarkedPaid db after)
    (t : Transaction) (ht : t ∈ db) :
    ∃ t', findById after t.id = some t' ∧ SameImmutableFields t t' := by
  rcases h.2 t ht with h1 | ⟨now, h1⟩
  · exact ⟨t, h1, rfl, rfl, rfl, rfl, rfl, rfl, rfl, rfl, rfl⟩
  · exact ⟨markPaid now t, h1, rfl, rfl, rfl, rfl, rfl, rfl, rfl, rfl, rfl⟩

/-! ## The claims on reads, creation, frame and sweeps -/

/-- C11 (a gateway failure never fails the read).  For every behaviour of the
session lookups, in particular when all of them throw, and for every outcome
of the saves, `getTransactions` answers 200 with the list of the user's
transactions and `getMetrics` answers 200 with the metrics, provided the two
store queries of the handler succeed. -/
theorem reads_survive_gateway_failures (stripe : StripeClient) (faults : Faults)
    (clock : Nat → Nat) (db : Store) (user : User)
    (h0 : faults.query 0 = none) (h1 : faults.query 1 = none) :
    (getTransactions stripe faults clock db user).1 =
      ⟨200, Body.transactions
        (sortByCreatedAtDesc (ownedBy user (getTransactions stripe faults clock db user).2))⟩ ∧
    (getMetrics stripe faults clock db user).1 =
      ⟨200, metricsOf user (getMetrics stripe faults clock db user).2⟩ ∧
    (getTransactions stripe faults clock db user).1.status ≠ 500 ∧
    (getMetrics stripe faults clock db user).1.status ≠ 500 := by
  have ht := getTransactions_response stripe faults clock db user h0 h1
  have hm := getMetrics_response stripe faults clock db user h0 h1
  refine ⟨ht, hm, ?_, ?_⟩
  · rw [ht]; simp
  · rw [hm]; simp

/-- An instance with every session lookup failing: both reads answer 200 and the
store is the one before the request. -/
theorem reads_survive_gateway_failures_witness :
    (getTransactions Fixture.stripeDown Faults.none Fixture.clock Fixture.shop Fixture.alice).1 =
      ⟨200, Body.transactions (sortByCreatedAtDesc (ownedBy Fixture.alice
        (getTransactions Fixture.stripeDown Faults.none Fixture.clock Fixture.shop
          Fixture.alice).2))⟩ ∧
    (getMetrics Fixture.stripeDown Faults.none Fixture.clock Fixture.shop Fixture.alice).1 =
      ⟨200, metricsOf Fixture.alice
        (getMetrics Fixture.stripeDown Faults.none Fixture.clock Fixture.shop Fixture.alice).2⟩ ∧
    (getTransactions Fixture.stripeDown Faults.none Fixture.clock Fixture.shop
      Fixture.alice).1.status ≠ 500 ∧
    (getMetrics Fixture.stripeDown Faults.none Fixture.clock Fixture.shop
      Fixture.alice).1.status ≠ 500 :=
  reads_survive_gateway_failures Fixture.stripeDown Faults.none Fixture.clock Fixture.shop
    Fixture.alice rfl rfl

/-- C12 (creation postcondition).  For a create-link request whose amount is
truthy with numeric value `q`, whose user has a Stripe account, for which
price creation and payment-link creation succeed with a non-empty link id and
url, and whose insert succeeds, `createPaymentLink` answers 201 with a new
stored transaction: `PENDING`, history exactly one `PENDING` entry, owned by
the requesting user, amount `q` (the request's amount when that is a number),
the request's description, the request's currency or `usd` when omitted, and
the link id and url returned by the processor. -/
theorem createPaymentLink_postcondition (stripe : StripeClient) (rt : Runtime) (faults : Faults)
    (newId now : Nat) (db : Store) (req : CreateLinkRequest) (q : ℚ) (price : Price)
    (link : PaymentLink)
    (hamount : req.amount.truthy = true) (hnumber : req.amount.toNumber rt = some q)
    (haccount : truthy req.user.stripe_account_id = true)
    (hprice : stripe.pricesCreate (req.currency.getD "usd") (some (numberTimes q 100))
      (orElseStr req.description "Payment") req.user.stripe_account_id = .ok price)
    (hlink : stripe.paymentLinksCreate price.id 1 (createPaymentLink.redirectUrl rt req)
      req.user.stripe_account_id = .ok link)
    (hid : link.id ≠ "") (hurl : link.url ≠ "") (hcreate : faults.create = none) :
    ∃ t, createPaymentLink stripe rt faults newId now db req =
        (⟨201, Body.transaction t⟩, db ++ [t]) ∧
      t.status = Status.PENDING ∧ t.history = [⟨Status.PENDING, now⟩] ∧
      historyStatuses t = [Status.PENDING] ∧
      t.user_id = req.user.id ∧ t.amount = q ∧ (∀ a, req.amount = JsValue.number a → t.amount = a) ∧
      t.description = req.description ∧ t.currency = req.currency.getD "usd" ∧
      t.stripe_payment_link_id = link.id ∧ t.payment_url = link.url ∧
      t.id = newId ∧ t.created_at = now := by
  have hcast := amount_cast rt req.amount q hamount hnumber
  have hredirect : createPaymentLink.redirectUrl rt req =
      (if includes req.host "10.0.2.2" || includes req.host "192.168" then
          req.protocol ++ "://localhost:" ++ orElseStr rt.port "5000" ++ "/api/stripe"
        else req.protocol ++ "://" ++ req.host ++ "/api/stripe")
        ++ "/success?redirect_uri="
        ++ rt.encodeURIComponent (orElseStr req.deepLinkBase "mobile://" ++ "stripe/success") :=
    rfl
  rw [hredirect] at hlink
  refine ⟨{ id := newId, user_id := req.user.id, stripe_payment_link_id := link.id,
            stripe_payment_intent_id := none, amount := q, currency := req.currency.getD "usd",
            description := req.description, status := Status.PENDING, payment_url := link.url,
            history := [⟨Status.PENDING, now⟩], created_at := now },
    ?_, rfl, rfl, rfl, rfl, rfl, ?_, rfl, rfl, rfl, rfl, rfl, rfl⟩
  · simp only [createPaymentLink, hamount, haccount, hnumber, Option.map_some', hprice, hlink,
      Transaction.create, hcast, hid, hurl, hcreate, Bool.not_true, Bool.false_eq_true,
      if_false, List.map_cons, List.map_nil]
  · intro a ha
    rw [ha] at hnumber
    simpa [JsValue.toNumber] using hnumber.symm

/-- An instance of the creation postcondition: scenario 1, amount 10.00 with the
currency omitted. -/
theorem createPaymentLink_postcondition_witness :
    ∃ t, createPaymentLink Fixture.stripe Fixture.runtime Faults.none 9 500 [Fixture.coffee]
        Fixture.createRequest = (⟨201, Body.transaction t⟩, [Fixture.coffee] ++ [t]) ∧
      t.status = Status.PENDING ∧ t.history = [⟨Status.PENDING, 500⟩] ∧
      historyStatuses t = [Status.PENDING] ∧
      t.user_id = Fixture.createRequest.user.id ∧ t.amount = 10 ∧
      (∀ a, Fixture.createRequest.amount = JsValue.number a → t.amount = a) ∧
      t.description = Fixture.createRequest.description ∧
      t.currency = Fixture.createRequest.currency.getD "usd" ∧
      t.stripe_payment_link_id = (PaymentLink.mk "plink_9" "https://buy.stripe.com/9").id ∧
      t.payment_url = (PaymentLink.mk "plink_9" "https://buy.stripe.com/9").url ∧
      t.id = 9 ∧ t.created_at = 500 :=
  createPaymentLink_postcondition Fixture.stripe Fixture.runtime Faults.none 9 500
    [Fixture.coffee] Fixture.createRequest 10 ⟨"price_1"⟩
    ⟨"plink_9", "https://buy.stripe.com/9"⟩ (by decide) rfl (by decide) rfl rfl (by decide)
    (by decide) rfl

/-- C13 (creation failure is surfaced and has no local effect).  For a
create-link request that reaches the processor (truthy amount, user with a
Stripe account), if price creation throws an error with message `e`, or price
creation succeeds and payment-link creation throws an error with message `e`,
then `createPaymentLink` answers 500 with the message `e` and the store is
unchanged: no transaction is created. -/
theorem createPaymentLink_processor_failure (stripe : StripeClient) (rt : Runtime)
    (faults : Faults) (newId now : Nat) (db : Store) (req : CreateLinkRequest) (e : String)
    (hamount : req.amount.truthy = true) (haccount : truthy req.user.stripe_account_id = true)
    (hfail :
      stripe.pricesCreate (req.currency.getD "usd")
          ((req.amount.toNumber rt).map fun a => numberTimes a 100)
        (orElseStr req.description "Payment") req.user.stripe_account_id = .error e ∨
      ∃ price,
        stripe.pricesCreate (req.currency.getD "usd")
          ((req.amount.toNumber rt).map fun a => numberTimes a 100)
          (orElseStr req.description "Payment") req.user.stripe_account_id = .ok price ∧
        stripe.paymentLinksCreate price.id 1 (createPaymentLink.redirectUrl rt req)
          req.user.stripe_account_id = .error e) :
    createPaymentLink stripe rt faults newId now db req = (⟨500, Body.message e⟩, db) := by
  rcases hfail with hprice | ⟨price, hprice, hlink⟩
  · simp only [createPaymentLink, hamount, haccount, hprice, Bool.not_true, Bool.false_eq_true,
      if_false]
  · have hredirect : createPaymentLink.redirectUrl rt req =
        (if includes req.host "10.0.2.2" || includes req.host "192.168" then
            req.protocol ++ "://localhost:" ++ orElseStr rt.port "5000" ++ "/api/stripe"
          else req.protocol ++ "://" ++ req.host ++ "/api/stripe")
          ++ "/success?redirect_uri="
          ++ rt.encodeURIComponent (orElseStr req.deepLinkBase "mobile://" ++ "stripe/success") :=
      rfl
    rw [hredirect] at hlink
    simp only [createPaymentLink, hamount, haccount, hprice, hlink, Bool.not_true,
      Bool.false_eq_true, if_false]

/-- An instance of the surfaced failure: price creation succeeds and payment-link
creation throws. -/
theorem createPaymentLink_processor_failure_witness :
    createPaymentLink
      { Fixture.stripe with paymentLinksCreate := fun _ _ _ _ => .error "Invalid redirect URL" }
      Fixture.runtime Faults.none 9 500 [Fixture.coffee] Fixture.createRequest =
      (⟨500, Body.message "Invalid redirect URL"⟩, [Fixture.coffee]) :=
  createPaymentLink_processor_failure
    { Fixture.stripe with paymentLinksCreate := fun _ _ _ _ => .error "Invalid redirect URL" }
    Fixture.runtime Faults.none 9 500 [Fixture.coffee] Fixture.createRequest
    "Invalid redirect URL" (by decide) (by decide) (Or.inr ⟨⟨"price_1"⟩, rfl, rfl⟩)

/-- C14 (metrics definition), the claim as stated fails.  On a store with two
`PAID` transactions of `alice` whose amounts are the doubles 0.1 and 0.2,
`getMetrics` answers `totalSales` 0.30000000000000004, the double
1351079888211149 / 2 ^ 52, which is not the sum of the two stored amounts; and
on three `PAID` transactions with amounts 0.1, 0.2 and 0.3 the answer depends
on the order of the documents, which a sum does not. -/
theorem getMetrics_totalSales_not_the_sum :
    (getMetrics Fixture.stripe Faults.none Fixture.clock [Fixture.gum, Fixture.mint]
      Fixture.alice).1 = ⟨200, Body.metrics (1351079888211149 / 4503599627370496) 2 2⟩ ∧
    ¬ (getMetrics Fixture.stripe Faults.none Fixture.clock [Fixture.gum, Fixture.mint]
        Fixture.alice).1 =
      ⟨200, Body.metrics
        (((getMetrics Fixture.stripe Faults.none Fixture.clock [Fixture.gum, Fixture.mint]
          Fixture.alice).2.filter
            fun t => t.user_id == Fixture.alice.id && t.status == Status.PAID).map
              Transaction.amount).sum
        ((getMetrics Fixture.stripe Faults.none Fixture.clock [Fixture.gum, Fixture.mint]
          Fixture.alice).2.filter fun t => t.user_id == Fixture.alice.id).length
        ((getMetrics Fixture.stripe Faults.none Fixture.clock [Fixture.gum, Fixture.mint]
          Fixture.alice).2.filter
            fun t => t.user_id == Fixture.alice.id && t.status == Status.PAID).length⟩ ∧
    (getMetrics Fixture.stripe Faults.none Fixture.clock
        [Fixture.gum, Fixture.mint, Fixture.lime] Fixture.alice).1 ≠
      (getMetrics Fixture.stripe Faults.none Fixture.clock
        [Fixture.lime, Fixture.mint, Fixture.gum] Fixture.alice).1 := by
  decide!

/-- C14 (metrics definition), amended.  When the two store queries succeed,
`getMetrics` for `user` answers 200 with, on the store after the sweep:
`count` the number of the user's transactions, `paidCount` the number of the
user's transactions with status `PAID`, and `totalSales` the amounts of the
user's `PAID` transactions added in the order of the store, starting from 0,
with the addition of doubles.  It is 0 when there are none and it is their sum
when no addition rounds; `paidCount ≤ count`, and the transactions that
contribute are exactly the stored ones owned by the user with status
`PAID`. -/
theorem getMetrics_definition (stripe : StripeClient) (faults : Faults) (clock : Nat → Nat)
    (db : Store) (user : User) (h0 : faults.query 0 = none) (h1 : faults.query 1 = none) :
    (getMetrics stripe faults clock db user).1 =
      ⟨200, Body.metrics
        (numberSum (((getMetrics stripe faults clock db user).2.filter
          fun t => t.user_id == user.id && t.status == Status.PAID).map Transaction.amount))
        ((getMetrics stripe faults clock db user).2.filter fun t => t.user_id == user.id).length
        ((getMetrics stripe faults clock db user).2.filter
          fun t => t.user_id == user.id && t.status == Status.PAID).length⟩ ∧
    ((getMetrics stripe faults clock db user).2.filter
        fun t => t.user_id == user.id && t.status == Status.PAID).length ≤
      ((getMetrics stripe faults clock db user).2.filter fun t => t.user_id == user.id).length ∧
    (((getMetrics stripe faults clock db user).2.filter
        fun t => t.user_id == user.id && t.status == Status.PAID) = [] →
      (getMetrics stripe faults clock db user).1 =
        ⟨200, Body.metrics 0
          ((getMetrics stripe faults clock db user).2.filter fun t => t.user_id == user.id).length
          0⟩) ∧
    (NoRounding (((getMetrics stripe faults clock db user).2.filter
        fun t => t.user_id == user.id && t.status == Status.PAID).map Transaction.amount) →
      (getMetrics stripe faults clock db user).1 =
        ⟨200, Body.metrics
          (((getMetrics stripe faults clock db user).2.filter
            fun t => t.user_id == user.id && t.status == Status.PAID).map Transaction.amount).sum
          ((getMetrics stripe faults clock db user).2.filter fun t => t.user_id == user.id).length
          ((getMetrics stripe faults clock db user).2.filter
            fun t => t.user_id == user.id && t.status == Status.PAID).length⟩) ∧
    (∀ t, t ∈ (getMetrics stripe faults clock db user).2.filter
        (fun t => t.user_id == user.id && t.status == Status.PAID) ↔
      t ∈ (getMetrics stripe faults clock db user).2 ∧ t.user_id = user.id ∧
        t.status = Status.PAID) := by
  have hm := getMetrics_response stripe faults clock db user h0 h1
  have hpaid : ∀ l : Store, paidOf user l =
      l.filter fun t => t.user_id == user.id && t.status == Status.PAID := by
    intro l
    simp only [paidOf, ownedBy, List.filter_filter]
    congr 1
    funext t
    exact Bool.and_comm _ _
  have hmain : (getMetrics stripe faults clock db user).1 =
      ⟨200, Body.metrics
        (numberSum (((getMetrics stripe faults clock db user).2.filter
          fun t => t.user_id == user.id && t.status == Status.PAID).map Transaction.amount))
        ((getMetrics stripe faults clock db user).2.filter fun t => t.user_id == user.id).length
        ((getMetrics stripe faults clock db user).2.filter
          fun t => t.user_id == user.id && t.status == Status.PAID).length⟩ := by
    rw [hm, metricsOf, hpaid]
    rfl
  refine ⟨hmain, ?_, ?_, ?_, ?_⟩
  · rw [← hpaid]
    exact List.length_filter_le _ _
  · intro hnone
    rw [hmain, hnone]
    rfl
  · intro hexact
    rw [hmain, numberSum_exact _ hexact]
  · intro t
    simp [List.mem_filter, and_assoc]

/-- An instance of the amended metrics definition on a store with transactions
of two users: after the sweep `alice` has four transactions, two of them paid
with amounts 10 and 7/2, whose additions do not round, for a total of 27/2. -/
theorem getMetrics_definition_witness :
    (getMetrics Fixture.stripe Faults.none Fixture.clock Fixture.shop Fixture.alice).1 =
      ⟨200, Body.metrics (27 / 2) 4 2⟩ ∧
    NoRounding (((getMetrics Fixture.stripe Faults.none Fixture.clock Fixture.shop
      Fixture.alice).2.filter
        fun t => t.user_id == Fixture.alice.id && t.status == Status.PAID).map
          Transaction.amount) ∧
    (getMetrics Fixture.stripe Faults.none Fixture.clock Fixture.shop Fixture.alice).1 =
      ⟨200, Body.metrics
        (numberSum (((getMetrics Fixture.stripe Faults.none Fixture.clock Fixture.shop
          Fixture.alice).2.filter
            fun t => t.user_id == Fixture.alice.id && t.status == Status.PAID).map
              Transaction.amount))
        ((getMetrics Fixture.stripe Faults.none Fixture.clock Fixture.shop Fixture.alice).2.filter
          fun t => t.user_id == Fixture.alice.id).length
        ((getMetrics Fixture.stripe Faults.none Fixture.clock Fixture.shop Fixture.alice).2.filter
          fun t => t.user_id == Fixture.alice.id && t.status == Status.PAID).length⟩ :=
  ⟨by decide!, by decide!,
    (getMetrics_definition Fixture.stripe Faults.none Fixture.clock Fixture.shop Fixture.alice
      rfl rfl).1⟩

/-- C15 (reads reflect the completed sweep).  With `_id` a key of the
collection and a driver that does not fail: for a stored `PENDING` transaction
`t` of the requesting user whose session lookup returns a paid session, the
list answered by that same `getTransactions` call holds `t` with status
`PAID`, and the metrics answered by that same `getMetrics` call count `t`: the
paid transactions of the user are some `earlier` ones, then `t` marked paid,
then some `later` ones; `paidCount` counts `t` once besides them, and
`totalSales` is computed by adding `t`'s amount to the total of the earlier
ones and then adding the amounts of the later ones. -/
theorem reads_reflect_sweep (stripe : StripeClient) (faults : Faults) (clock : Nat → Nat)
    (db : Store) (user : User) (t : Transaction) (hids : UniqueIds db)
    (h0 : faults.query 0 = none) (h1 : faults.query 1 = none)
    (hsave : ∀ i, faults.save i = none) (ht : t ∈ db) (hcond : SweepCondition stripe user t) :
    (∃ ts, (getTransactions stripe faults clock db user).1 = ⟨200, Body.transactions ts⟩ ∧
      ∃ t' ∈ ts, t'.id = t.id ∧ t'.status = Status.PAID ∧
        t'.history = t.history ++ [⟨Status.PAID, clock t.id⟩] ∧ t'.amount = t.amount) ∧
    (∃ earlier later : List Transaction,
      (getMetrics stripe faults clock db user).2.filter
          (fun x => x.user_id == user.id && x.status == Status.PAID) =
        earlier ++ markPaid (clock t.id) t :: later ∧
      (getMetrics stripe faults clock db user).1 =
        ⟨200, Body.metrics
          ((later.map Transaction.amount).foldl numberPlus
            (numberPlus (numberSum (earlier.map Transaction.amount)) t.amount))
          ((getMetrics stripe faults clock db user).2.filter fun x => x.user_id == user.id).length
          (earlier.length + 1 + later.length)⟩) := by
  have hsel : sweepSelects stripe user t = true := (sweepSelects_iff stripe user t).2 hcond
  have hmem : markPaid (clock t.id) t ∈ (getTransactions stripe faults clock db user).2 := by
    rw [sweep_store_eq stripe faults clock db user hids h0 hsave]
    exact List.mem_map.2 ⟨t, ht, by simp [hsel]⟩
  have howned : markPaid (clock t.id) t ∈
      ownedBy user (getTransactions stripe faults clock db user).2 := by
    refine List.mem_filter.2 ⟨hmem, ?_⟩
    have : (markPaid (clock t.id) t).user_id = user.id := hcond.1
    simp [this]
  have hpaid : markPaid (clock t.id) t ∈
      paidOf user (getTransactions stripe faults clock db user).2 :=
    List.mem_filter.2 ⟨howned, by simp [markPaid]⟩
  have hfilter : ∀ l : Store, paidOf user l =
      l.filter fun x => x.user_id == user.id && x.status == Status.PAID := by
    intro l
    simp only [paidOf, ownedBy, List.filter_filter]
    congr 1
    funext x
    exact Bool.and_comm _ _
  refine ⟨⟨_, getTransactions_response stripe faults clock db user h0 h1,
    markPaid (clock t.id) t, ?_, rfl, rfl, rfl, rfl⟩, ?_⟩
  · exact (List.perm_insertionSort _ _).mem_iff.2 howned
  · obtain ⟨earlier, later, hsplit⟩ := List.append_of_mem hpaid
    refine ⟨earlier, later, ?_, ?_⟩
    · rw [getMetrics_store, ← hfilter]
      exact hsplit
    · rw [getMetrics_response stripe faults clock db user h0 h1, getMetrics_store, metricsOf,
        hsplit]
      have hamount : (markPaid (clock t.id) t).amount = t.amount := rfl
      have hlen : (earlier ++ markPaid (clock t.id) t :: later).length =
          earlier.length + 1 + later.length := by
        simp only [List.length_append, List.length_cons]
        omega
      rw [hlen]
      simp only [numberSum, List.map_append, List.map_cons, List.foldl_append, List.foldl_cons,
        hamount, ownedBy]

/-- An instance of the reflected sweep: `coffee` in the store `shop`. -/
theorem reads_reflect_sweep_witness :
    (∃ ts, (getTransactions Fixture.stripe Faults.none Fixture.clock Fixture.shop
        Fixture.alice).1 = ⟨200, Body.transactions ts⟩ ∧
      ∃ t' ∈ ts, t'.id = Fixture.coffee.id ∧ t'.status = Status.PAID ∧
        t'.history = Fixture.coffee.history ++ [⟨Status.PAID, Fixture.clock Fixture.coffee.id⟩] ∧
        t'.amount = Fixture.coffee.amount) ∧
    (∃ earlier later : List Transaction,
      (getMetrics Fixture.stripe Faults.none Fixture.clock Fixture.shop Fixture.alice).2.filter
          (fun x => x.user_id == Fixture.alice.id && x.status == Status.PAID) =
        earlier ++ markPaid (Fixture.clock Fixture.coffee.id) Fixture.coffee :: later ∧
      (getMetrics Fixture.stripe Faults.none Fixture.clock Fixture.shop Fixture.alice).1 =
        ⟨200, Body.metrics
          ((later.map Transaction.amount).foldl numberPlus
            (numberPlus (numberSum (earlier.map Transaction.amount)) Fixture.coffee.amount))
          ((getMetrics Fixture.stripe Faults.none Fixture.clock Fixture.shop
            Fixture.alice).2.filter fun x => x.user_id == Fixture.alice.id).length
          (earlier.length + 1 + later.length)⟩) :=
  reads_reflect_sweep Fixture.stripe Faults.none Fixture.clock Fixture.shop Fixture.alice
    Fixture.coffee (by decide) rfl rfl (fun _ => rfl) (by decide)
    ⟨rfl, rfl, by decide,
      [⟨"cs_0", some "plink_1", "unpaid"⟩, ⟨"cs_1", some "plink_1", "paid"⟩], rfl,
      ⟨"cs_1", some "plink_1", "paid"⟩, by decide, rfl⟩

/-- C16 (history is append-only).  With `_id` a key of the collection, for
every stored transaction `t` and each of `handleStripeWebhook`, the sweep of
`getTransactions` and the sweep of `getMetrics`, whatever Stripe and the
driver do: the transaction is still stored, its history before the operation
is a prefix of its history after it, and if its status changed then exactly
one entry was appended. -/
theorem history_append_only (stripe : StripeClient) (secret : Option String) (faults : Faults)
    (now : Nat) (clock : Nat → Nat) (db : Store) (req : WebhookRequest) (user : User)
    (t : Transaction) (hids : UniqueIds db) (ht : t ∈ db) :
    (∃ t', findById (handleStripeWebhook stripe secret faults now db req).2 t.id = some t' ∧
      t.history <+: t'.history ∧ (t'.status ≠ t.status → ∃ e, t'.history = t.history ++ [e])) ∧
    (∃ t', findById (getTransactions stripe faults clock db user).2 t.id = some t' ∧
      t.history <+: t'.history ∧ (t'.status ≠ t.status → ∃ e, t'.history = t.history ++ [e])) ∧
    (∃ t', findById (getMetrics stripe faults clock db user).2 t.id = some t' ∧
      t.history <+: t'.history ∧ (t'.status ≠ t.status → ∃ e, t'.history = t.history ++ [e])) := by
  refine ⟨?_, ?_, ?_⟩
  · exact appendOnly_of_onlyMarkedPaid db _
      (webhook_onlyMarkedPaid stripe secret faults now db req hids) t ht
  · exact appendOnly_of_onlyMarkedPaid db _ (sweep_onlyMarkedPaid stripe faults clock db user hids)
      t ht
  · rw [getMetrics_store]
    exact appendOnly_of_onlyMarkedPaid db _ (sweep_onlyMarkedPaid stripe faults clock db user hids)
      t ht

/-- An instance of the append-only history: `coffee` in the store `shop`, with a
webhook for its payment link. -/
theorem history_append_only_witness :
    (∃ t', findById (handleStripeWebhook Fixture.stripe none Faults.none 300 Fixture.shop
        ⟨"plink_1", some "sig_ok"⟩).2 Fixture.coffee.id = some t' ∧
      Fixture.coffee.history <+: t'.history ∧
      (t'.status ≠ Fixture.coffee.status → ∃ e, t'.history = Fixture.coffee.history ++ [e])) ∧
    (∃ t', findById (getTransactions Fixture.stripe Faults.none Fixture.clock Fixture.shop
        Fixture.alice).2 Fixture.coffee.id = some t' ∧
      Fixture.coffee.history <+: t'.history ∧
      (t'.status ≠ Fixture.coffee.status → ∃ e, t'.history = Fixture.coffee.history ++ [e])) ∧
    (∃ t', findById (getMetrics Fixture.stripe Faults.none Fixture.clock Fixture.shop
        Fixture.alice).2 Fixture.coffee.id = some t' ∧
      Fixture.coffee.history <+: t'.history ∧
      (t'.status ≠ Fixture.coffee.status → ∃ e, t'.history = Fixture.coffee.history ++ [e])) :=
  history_append_only Fixture.stripe none Faults.none 300 Fixture.clock Fixture.shop
    ⟨"plink_1", some "sig_ok"⟩ Fixture.alice Fixture.coffee (by decide) (by decide)

/-- C17 (immutable fields are framed).  With `_id` a key of the collection, for
each of `handleStripeWebhook`, the sweep of `getTransactions` and the sweep of
`getMetrics`, whatever Stripe and the driver do: the store after the operation
holds the same `_id`s in the same order (no transaction is added or removed),
and every stored transaction has the same `user_id`,
`stripe_payment_link_id`, `amount`, `currency`, `description`, `payment_url`
and `created_at` as before; only `status` and `history` may differ. -/
theorem immutable_fields_framed (stripe : StripeClient) (secret : Option String)
    (faults : Faults) (now : Nat) (clock : Nat → Nat) (db : Store) (req : WebhookRequest)
    (user : User) (hids : UniqueIds db) :
    ((handleStripeWebhook stripe secret faults now db req).2.map Transaction.id =
        db.map Transaction.id ∧
      ∀ t ∈ db, ∃ t', findById (handleStripeWebhook stripe secret faults now db req).2 t.id =
        some t' ∧ SameImmutableFields t t') ∧
    ((getTransactions stripe faults clock db user).2.map Transaction.id = db.map Transaction.id ∧
      ∀ t ∈ db, ∃ t', findById (getTransactions stripe faults clock db user).2 t.id = some t' ∧
        SameImmutableFields t t') ∧
    ((getMetrics stripe faults clock db user).2.map Transaction.id = db.map Transaction.id ∧
      ∀ t ∈ db, ∃ t', findById (getMetrics stripe faults clock db user).2 t.id = some t' ∧
        SameImmutableFields t t') := by
  have hw := webhook_onlyMarkedPaid stripe secret faults now db req hids
  have hs := sweep_onlyMarkedPaid stripe faults clock db user hids
  refine ⟨⟨hw.1, fun t ht => frame_of_onlyMarkedPaid db _ hw t ht⟩,
    ⟨hs.1, fun t ht => frame_of_onlyMarkedPaid db _ hs t ht⟩, ?_⟩
  rw [getMetrics_store]
  exact ⟨hs.1, fun t ht => frame_of_onlyMarkedPaid db _ hs t ht⟩

/-- An instance of the frame property on the store `shop`. -/
theorem immutable_fields_framed_witness :
    ((handleStripeWebhook Fixture.stripe none Faults.none 300 Fixture.shop
        ⟨"plink_1", some "sig_ok"⟩).2.map Transaction.id = Fixture.shop.map Transaction.id ∧
      ∀ t ∈ Fixture.shop, ∃ t', findById (handleStripeWebhook Fixture.stripe none Faults.none 300
        Fixture.shop ⟨"plink_1", some "sig_ok"⟩).2 t.id = some t' ∧ SameImmutableFields t t') ∧
    ((getTransactions Fixture.stripe Faults.none Fixture.clock Fixture.shop Fixture.alice).2.map
        Transaction.id = Fixture.shop.map Transaction.id ∧
      ∀ t ∈ Fixture.shop, ∃ t', findById (getTransactions Fixture.stripe Faults.none Fixture.clock
        Fixture.shop Fixture.alice).2 t.id = some t' ∧ SameImmutableFields t t') ∧
    ((getMetrics Fixture.stripe Faults.none Fixture.clock Fixture.shop Fixture.alice).2.map
        Transaction.id = Fixture.shop.map Transaction.id ∧
      ∀ t ∈ Fixture.shop, ∃ t', findById (getMetrics Fixture.stripe Faults.none Fixture.clock
        Fixture.shop Fixture.alice).2 t.id = some t' ∧ SameImmutableFields t t') :=
  immutable_fields_framed Fixture.stripe none Faults.none 300 Fixture.clock Fixture.shop
    ⟨"plink_1", some "sig_ok"⟩ Fixture.alice (by decide)

/-- C18 (session order independence).  If for every payment link the session
lookups of two Stripe clients both throw or return lists that are permutations
of each other, then every iteration of the sweep yields the same store with
both, and `getTransactions` and `getMetrics` yield the same response and the
same store with both.  The same holds for any third client whose lookups agree
with the first only on whether some returned session has `payment_status`
`'paid'`: neither the position nor the number of paid sessions matters. -/
theorem sweep_session_order_independent (stripe₁ stripe₂ : StripeClient) (faults : Faults)
    (clock : Nat → Nat) (db : Store) (user : User)
    (hperm : ∀ link, SameUpToOrder (stripe₁.sessionsList link 5 user.stripe_account_id)
      (stripe₂.sessionsList link 5 user.stripe_account_id)) :
    (∀ cur t, getTransactions.syncStep stripe₁ faults clock user cur t =
      getTransactions.syncStep stripe₂ faults clock user cur t) ∧
    getTransactions stripe₁ faults clock db user = getTransactions stripe₂ faults clock db user ∧
    getMetrics stripe₁ faults clock db user = getMetrics stripe₂ faults clock db user ∧
    ∀ stripe₃ : StripeClient,
      (∀ link, SamePaidness (stripe₁.sessionsList link 5 user.stripe_account_id)
        (stripe₃.sessionsList link 5 user.stripe_account_id)) →
      (∀ cur t, getTransactions.syncStep stripe₁ faults clock user cur t =
        getTransactions.syncStep stripe₃ faults clock user cur t) ∧
      getTransactions stripe₁ faults clock db user = getTransactions stripe₃ faults clock db user ∧
      getMetrics stripe₁ faults clock db user = getMetrics stripe₃ faults clock db user := by
  have hpaid : ∀ link, SamePaidness (stripe₁.sessionsList link 5 user.stripe_account_id)
      (stripe₂.sessionsList link 5 user.stripe_account_id) :=
    fun link => sameUpToOrder_samePaidness _ _ (hperm link)
  refine ⟨fun cur t => syncStep_congr stripe₁ stripe₂ faults clock user cur t (hpaid _),
    (reads_congr stripe₁ stripe₂ faults clock db user hpaid).1,
    (reads_congr stripe₁ stripe₂ faults clock db user hpaid).2, ?_⟩
  intro stripe₃ h₃
  exact ⟨fun cur t => syncStep_congr stripe₁ stripe₃ faults clock user cur t (h₃ _),
    (reads_congr stripe₁ stripe₃ faults clock db user h₃).1,
    (reads_congr stripe₁ stripe₃ faults clock db user h₃).2⟩

/-- An instance of order independence: the Stripe double and the double that
returns every session list reversed, on the store `shop`. -/
theorem sweep_session_order_independent_witness :
    (∀ cur t, getTransactions.syncStep Fixture.stripe Faults.none Fixture.clock Fixture.alice
        cur t =
      getTransactions.syncStep Fixture.stripeReordered Faults.none Fixture.clock Fixture.alice
        cur t) ∧
    getTransactions Fixture.stripe Faults.none Fixture.clock Fixture.shop Fixture.alice =
      getTransactions Fixture.stripeReordered Faults.none Fixture.clock Fixture.shop
        Fixture.alice ∧
    getMetrics Fixture.stripe Faults.none Fixture.clock Fixture.shop Fixture.alice =
      getMetrics Fixture.stripeReordered Faults.none Fixture.clock Fixture.shop Fixture.alice ∧
    ∀ stripe₃ : StripeClient,
      (∀ link, SamePaidness (Fixture.stripe.sessionsList link 5 Fixture.alice.stripe_account_id)
        (stripe₃.sessionsList link 5 Fixture.alice.stripe_account_id)) →
      (∀ cur t, getTransactions.syncStep Fixture.stripe Faults.none Fixture.clock Fixture.alice
          cur t =
        getTransactions.syncStep stripe₃ Faults.none Fixture.clock Fixture.alice cur t) ∧
      getTransactions Fixture.stripe Faults.none Fixture.clock Fixture.shop Fixture.alice =
        getTransactions stripe₃ Faults.none Fixture.clock Fixture.shop Fixture.alice ∧
      getMetrics Fixture.stripe Faults.none Fixture.clock Fixture.shop Fixture.alice =
        getMetrics stripe₃ Faults.none Fixture.clock Fixture.shop Fixture.alice :=
  sweep_session_order_independent Fixture.stripe Fixture.stripeReordered Faults.none
    Fixture.clock Fixture.shop Fixture.alice (fun link => by
      show SameUpToOrder (Fixture.stripe.sessionsList link 5 Fixture.alice.stripe_account_id)
        (match Fixture.stripe.sessionsList link 5 Fixture.alice.stripe_account_id with
          | .ok sessions => .ok sessions.reverse
          | .error e => .error e)
      cases Fixture.stripe.sessionsList link 5 Fixture.alice.stripe_account_id with
      | ok sessions => exact (List.reverse_perm sessions).symm
      | error e => trivial)

/-- C19 (race convergence).  In the schedule in which the sweep runs its query
and its loop and then the webhook handler runs its query and its save, the
`PENDING` transaction `coffee` ends with two `PAID` history entries, not one;
the store is the one that `handleStripeWebhook` leaves when run after
`getTransactions`.  The same happens in the schedule in which both handlers
run their query, both reading `PENDING`, before either saves.  In the schedule
in which the webhook handler runs first there is one `PAID` entry. -/
theorem race_sweep_then_webhook_appends_twice :
    (runRace Fixture.stripe Fixture.clock Fixture.alice "plink_1" 300 [Fixture.coffee]
        [RaceStep.sweepFind, RaceStep.sweepSave, RaceStep.webhookFind,
          RaceStep.webhookSave]).map (fun t => (t.status, historyStatuses t, paidEntries t))
      = [(Status.PAID, [Status.PENDING, Status.PAID, Status.PAID], 2)] ∧
    runRace Fixture.stripe Fixture.clock Fixture.alice "plink_1" 300 [Fixture.coffee]
        [RaceStep.sweepFind, RaceStep.sweepSave, RaceStep.webhookFind, RaceStep.webhookSave]
      = (handleStripeWebhook Fixture.stripe none Faults.none 300
          (getTransactions Fixture.stripe Faults.none Fixture.clock [Fixture.coffee]
            Fixture.alice).2 ⟨"plink_1", some "sig_ok"⟩).2 ∧
    (runRace Fixture.stripe Fixture.clock Fixture.alice "plink_1" 300 [Fixture.coffee]
        [RaceStep.sweepFind, RaceStep.webhookFind, RaceStep.sweepSave,
          RaceStep.webhookSave]).map (fun t => (t.status, historyStatuses t, paidEntries t))
      = [(Status.PAID, [Status.PENDING, Status.PAID, Status.PAID], 2)] ∧
    (runRace Fixture.stripe Fixture.clock Fixture.alice "plink_1" 300 [Fixture.coffee]
        [RaceStep.webhookFind, RaceStep.webhookSave, RaceStep.sweepFind,
          RaceStep.sweepSave]).map (fun t => (t.status, historyStatuses t, paidEntries t))
      = [(Status.PAID, [Status.PENDING, Status.PAID], 1)] := by
  decide

/-- C20 (the two sweeps are the same).  For every store, user, Stripe behaviour
and driver behaviour, the store after the sync phase of `getMetrics` equals
the store after the sync phase of `getTransactions` once the times of the
history entries are forgotten, whatever the clocks of the two runs; with the
same clock the two stores are equal. -/
theorem sweeps_agree (stripe : StripeClient) (faults : Faults) (clock₁ clock₂ : Nat → Nat)
    (db : Store) (user : User) :
    (getMetrics stripe faults clock₁ db user).2.map forgetTimestamps =
      (getTransactions stripe faults clock₂ db user).2.map forgetTimestamps ∧
    (getMetrics stripe faults clock₁ db user).2 = (getTransactions stripe faults clock₁ db user).2 := by
  refine ⟨?_, getMetrics_store stripe faults clock₁ db user⟩
  rw [getMetrics_store]
  exact sweep_forgetTimestamps stripe faults clock₁ clock₂ db user

/-! ## Lemmas for validation, listing and idempotence -/

/-- A request that fails the amount test is answered 400 `Amount is required`
without looking at Stripe or the database. -/
theorem createPaymentLink_amount_falsy (stripe : StripeClient) (rt : Runtime) (faults : Faults)
    (newId now : Nat) (db : Store) (req : CreateLinkRequest) (h : req.amount.truthy = false) :
    createPaymentLink stripe rt faults newId now db req =
      (⟨400, Body.message "Amount is required"⟩, db) := by
  simp [createPaymentLink, h]

/-- A request that passes the amount test and whose user has no Stripe account
is answered 400 without looking at Stripe or the database. -/
theorem createPaymentLink_no_account (stripe : StripeClient) (rt : Runtime) (faults : Faults)
    (newId now : Nat) (db : Store) (req : CreateLinkRequest) (ha : req.amount.truthy = true)
    (h : truthy req.user.stripe_account_id = false) :
    createPaymentLink stripe rt faults newId now db req =
      (⟨400, Body.message "Please connect your Stripe account first"⟩, db) := by
  simp [createPaymentLink, ha, h]

/-- A request that passes both tests is answered 500 or 201. -/
theorem createPaymentLink_validated (stripe : StripeClient) (rt : Runtime) (faults : Faults)
    (newId now : Nat) (db : Store) (req : CreateLinkRequest) (ha : req.amount.truthy = true)
    (hu : truthy req.user.stripe_account_id = true) :
    (createPaymentLink stripe rt faults newId now db req).1.status = 500 ∨
      (createPaymentLink stripe rt faults newId now db req).1.status = 201 := by
  unfold createPaymentLink
  simp only [ha, hu, Bool.not_true, Bool.false_eq_true, if_false]
  split
  · left; rfl
  · split
    · left; rfl
    · split
      · left; rfl
      · right; rfl

/-- Looking a user up after the documents with the `_id` `i` were replaced. -/
theorem storedUser_replace (users : List UserDoc) (i : Nat) (d : UserDoc) (hd : d.id = i)
    (h : ∃ u ∈ users, u.id = i) :
    storedUser (users.map fun u => if u.id = i then d else u) i = some d := by
  unfold storedUser
  induction users with
  | nil => obtain ⟨u, hu, _⟩ := h; cases hu
  | cons a rest ih =>
    by_cases ha : a.id = i
    · simp [List.find?_cons, ha, hd]
    · have hr : ∃ u ∈ rest, u.id = i := by
        obtain ⟨u, hu, hui⟩ := h
        rcases List.mem_cons.1 hu with h1 | h1
        · subst h1; exact absurd hui ha
        · exact ⟨u, h1, hui⟩
      simpa [List.find?_cons, ha] using ih hr

/-- A loop that, for each selected element, replaces the documents with its
`_id` by its paid state maps every document through the effect of the
iterations. -/
theorem foldl_replace_eq_map (sel : Transaction → Bool) (clock : Nat → Nat)
    (pend : List Transaction) :
    ∀ cur : Store,
      pend.foldl (fun (cur : Store) t =>
        if sel t = true then cur.map fun x => if x.id = t.id then markPaid (clock t.id) t else x
        else cur) cur =
      cur.map fun x => pend.foldl (fun acc t =>
        if acc.id = t.id ∧ sel t = true then markPaid (clock t.id) t else acc) x := by
  induction pend with
  | nil => intro cur; simp
  | cons t rest ih =>
    intro cur
    simp only [List.foldl_cons]
    rw [ih]
    by_cases hsel : sel t = true
    · simp only [hsel, if_true, and_true, List.map_map]
      rfl
    · have hf : sel t = false := by simpa using hsel
      simp [hf]

/-- The effect of the iterations on a document `x`, when `x` is the only swept
document with its `_id`. -/
theorem replace_effect_on (sel : Transaction → Bool) (clock : Nat → Nat) (x : Transaction)
    (pend : List Transaction) :
    ∀ acc : Transaction, acc.id = x.id → (∀ t ∈ pend, t.id = x.id → t = x) →
      pend.foldl (fun acc t =>
        if acc.id = t.id ∧ sel t = true then markPaid (clock t.id) t else acc) acc =
      if x ∈ pend ∧ sel x = true then markPaid (clock x.id) x else acc := by
  induction pend with
  | nil => intro acc _ _; simp
  | cons t rest ih =>
    intro acc hacc huniq
    have hrest : ∀ t ∈ rest, t.id = x.id → t = x :=
      fun u hu => huniq u (List.mem_cons_of_mem _ hu)
    simp only [List.foldl_cons]
    by_cases hid : t.id = x.id
    · have htx : t = x := huniq t (List.mem_cons_self _ _) hid
      subst htx
      by_cases hsel : sel t = true
      · rw [if_pos ⟨hacc, hsel⟩, ih _ (markPaid_id _ _) hrest]
        simp [hsel]
      · rw [if_neg (fun h => hsel h.2), ih _ hacc hrest]
        simp [hsel]
    · have hne : ¬ acc.id = t.id := fun h => hid (h.symm.trans hacc)
      have hxt : ¬ x = t := fun h => hid (h ▸ rfl)
      rw [if_neg (fun h => hne h.1), ih _ hacc hrest]
      simp [hxt]

/-- The collection after the sweep of `getTransactions`, when `_id` is a key,
whatever the driver does: every document to which the sweep applies is marked
paid, every other document is as before. -/
theorem sweep_store_map (stripe : StripeClient) (faults : Faults) (clock : Nat → Nat)
    (db : Store) (user : User) (hids : UniqueIds db) :
    (getTransactions stripe faults clock db user).2 =
      db.map fun t =>
        if sweepApplies stripe faults user t = true then markPaid (clock t.id) t else t := by
  rw [getTransactions_store]
  cases hq : faults.query 0 with
  | some e =>
    simp only [sweepApplies, hq, Option.isNone_some, Bool.false_and, Bool.false_eq_true, if_false]
    simp
  | none =>
    simp only
    have hstep : getTransactions.syncStep stripe faults clock user =
        fun (cur : Store) t =>
          if (t.stripe_payment_link_id != "" && paidSessionFound stripe user t
              && (faults.save t.id).isNone) = true
          then cur.map fun x => if x.id = t.id then markPaid (clock t.id) t else x
          else cur := by
      funext cur t
      exact syncStep_eq_ite stripe faults clock user cur t
    rw [hstep, foldl_replace_eq_map (fun t => t.stripe_payment_link_id != ""
      && paidSessionFound stripe user t && (faults.save t.id).isNone) clock]
    apply List.map_congr_left
    intro x hx
    rw [replace_effect_on _ clock x _ x rfl]
    · by_cases hp : (x.user_id == user.id && x.status == Status.PENDING) = true
      · have hmem : x ∈ List.filter
            (fun t => t.user_id == user.id && t.status == Status.PENDING) db :=
          List.mem_filter.2 ⟨hx, hp⟩
        simp only [sweepApplies, sweepSelects, hq, hmem, true_and, hp, Bool.true_and,
          Option.isNone_none, Bool.and_assoc]
      · have hmem : ¬ x ∈ List.filter
            (fun t => t.user_id == user.id && t.status == Status.PENDING) db :=
          fun h => hp (List.mem_filter.1 h).2
        have hp' : (x.user_id == user.id && x.status == Status.PENDING) = false := by
          simpa using hp
        simp only [sweepApplies, sweepSelects, hq, hmem, false_and, if_false, hp',
          Bool.false_and, Bool.and_assoc, Option.isNone_none, Bool.true_and]
        simp
    · intro t ht hid
      exact List.inj_on_of_nodup_map hids (List.mem_filter.1 ht).1 hx hid

/-- The sweep does not apply to a document that is not `PENDING`. -/
theorem sweepApplies_not_pending (stripe : StripeClient) (faults : Faults) (user : User)
    (t : Transaction) (h : t.status ≠ Status.PENDING) :
    sweepApplies stripe faults user t = false := by
  have : (t.status == Status.PENDING) = false := by simpa using h
  simp [sweepApplies, sweepSelects, this]

/-- The sweep keeps the list of `_id`s. -/
theorem sweep_ids (stripe : StripeClient) (faults : Faults) (clock : Nat → Nat)
    (db : Store) (user : User) (hids : UniqueIds db) :
    (getTransactions stripe faults clock db user).2.map Transaction.id =
      db.map Transaction.id :=
  (sweep_onlyMarkedPaid stripe faults clock db user hids).1

/-! ## The claims on cents, listing, onboarding, idempotence and validation -/

/-- C21 (amount is sent to the processor in cents).  For the accepted request
with amount 19.99, a value with two decimal places, the `unit_amount` that
`createPaymentLink` passes to price creation is the double product
`19.99 * 100`, which is `1999 - 2 ^ (-42)` (printed `1998.9999999999998`) and
not the integer 1999; a processor that accepts only integer cents rejects it
and the request is answered with 500 without a stored transaction.  For the
amount 10 the product is the integer 1000 and the request is answered with
201. -/
theorem cents_of_19_99_not_integer :
    numberTimes (roundDouble (1999 / 100)) 100 = 1999 - 1 / 2 ^ 42 ∧
    numberTimes (roundDouble (1999 / 100)) 100 ≠ 1999 ∧
    (numberTimes (roundDouble (1999 / 100)) 100).den ≠ 1 ∧
    createPaymentLink Fixture.stripeStrict Fixture.runtime Faults.none 9 500 [Fixture.coffee]
      Fixture.createRequest1999 = (⟨500, Body.message "Invalid integer"⟩, [Fixture.coffee]) ∧
    numberTimes 10 100 = 1000 ∧
    (createPaymentLink Fixture.stripeStrict Fixture.runtime Faults.none 9 500 [Fixture.coffee]
      Fixture.createRequest).1.status = 201 := by
  decide!

/-- C25 (create-link validation).  `createPaymentLink` answers 400 if and only if
the request's amount is falsy or the user has no `stripe_account_id`.  In that
case the answer and the store do not depend on Stripe or on the database
driver (no processor call, no store write), the store is unchanged, and the
amount test comes first: a falsy amount gets `Amount is required` whatever
the account.  The falsy amounts are exactly the absent one, `null`, `false`,
`0`, `NaN` and the empty string; a negative number and a non-empty string that
is not a number are truthy and pass the validation. -/
theorem createPaymentLink_validation (stripe : StripeClient) (rt : Runtime) (faults : Faults)
    (newId now : Nat) (db : Store) (req : CreateLinkRequest) :
    ((createPaymentLink stripe rt faults newId now db req).1.status = 400 ↔
      (req.amount.truthy = false ∨ truthy req.user.stripe_account_id = false)) ∧
    (req.amount.truthy = false →
      ∀ (stripe' : StripeClient) (faults' : Faults),
        createPaymentLink stripe' rt faults' newId now db req =
          (⟨400, Body.message "Amount is required"⟩, db)) ∧
    (req.amount.truthy = true → truthy req.user.stripe_account_id = false →
      ∀ (stripe' : StripeClient) (faults' : Faults),
        createPaymentLink stripe' rt faults' newId now db req =
          (⟨400, Body.message "Please connect your Stripe account first"⟩, db)) ∧
    (req.amount.truthy = false ↔
      req.amount ∈ [JsValue.undefined, JsValue.null, JsValue.bool false, JsValue.number 0,
        JsValue.nan, JsValue.string ""]) ∧
    (truthy req.user.stripe_account_id = false ↔
      (req.user.stripe_account_id = none ∨ req.user.stripe_account_id = some "")) ∧
    (∀ q : ℚ, q < 0 → (JsValue.number q).truthy = true) ∧
    (∀ str : String, str ≠ "" → (JsValue.string str).truthy = true) := by
  refine ⟨?_, ?_, ?_, ?_, ?_, ?_, ?_⟩
  · constructor
    · intro h400
      by_cases ha : req.amount.truthy = true
      · by_cases hu : truthy req.user.stripe_account_id = true
        · rcases createPaymentLink_validated stripe rt faults newId now db req ha hu with h | h
          · rw [h] at h400; cases h400
          · rw [h] at h400; cases h400
        · right; simpa using hu
      · left; simpa using ha
    · rintro (ha | hu)
      · rw [createPaymentLink_amount_falsy stripe rt faults newId now db req ha]
      · by_cases ha : req.amount.truthy = true
        · rw [createPaymentLink_no_account stripe rt faults newId now db req ha hu]
        · rw [createPaymentLink_amount_falsy stripe rt faults newId now db req (by simpa using ha)]
  · intro ha stripe' faults'
    exact createPaymentLink_amount_falsy stripe' rt faults' newId now db req ha
  · intro ha hu stripe' faults'
    exact createPaymentLink_no_account stripe' rt faults' newId now db req ha hu
  · cases req.amount with
    | undefined => simp [JsValue.truthy]
    | null => simp [JsValue.truthy]
    | nan => simp [JsValue.truthy]
    | bool b => cases b <;> simp [JsValue.truthy]
    | number q => simp [JsValue.truthy]
    | string str => simp [JsValue.truthy]
  · cases req.user.stripe_account_id with
    | none => simp [truthy]
    | some a => simp [truthy]
  · intro q hq
    simp [JsValue.truthy, ne_of_lt hq]
  · intro str hstr
    simp [JsValue.truthy, hstr]

/-- C23 (relaxed onboarding check).  For a stored user found by `findById`,
with a driver that does not fail: if the user has no Stripe account id, the
handler answers 200 `{ connected: false }` and the `User` collection is
unchanged; if the user has a Stripe account id and the account is retrieved,
the handler answers 200 with `connected` equal to the account's
`details_submitted`, whatever `charges_enabled` is, and after the call the
stored `stripe_onboarding_complete` of the user is that value, every other
path of the user being as before. -/
theorem getStripeStatus_relaxed (stripe : StripeAccounts) (faults : UserFaults)
    (users : List UserDoc) (reqUser : User) (user : UserDoc)
    (hfound : storedUser users reqUser.id = some user)
    (hquery : faults.findById = none) (hsave : faults.save = none) :
    (truthy user.stripe_account_id = false →
      getStripeStatus stripe faults users reqUser = (⟨200, StatusBody.notConnected⟩, users)) ∧
    (∀ accountId account, user.stripe_account_id = some accountId → accountId ≠ "" →
      stripe.retrieve accountId = .ok account →
      (getStripeStatus stripe faults users reqUser).1 =
        ⟨200, StatusBody.status account.details_submitted account.details_submitted
          account.charges_enabled⟩ ∧
      storedUser (getStripeStatus stripe faults users reqUser).2 reqUser.id =
        some { user with stripe_onboarding_complete := account.details_submitted }) := by
  have hfind : users.find? (fun u => u.id == reqUser.id) = some user := hfound
  have huid : user.id = reqUser.id := by
    have := List.find?_some hfind
    simpa using this
  refine ⟨?_, ?_⟩
  · intro hno
    simp [getStripeStatus, User.findById, hquery, hfind, hno]
  · intro accountId account hacct hne hretrieve
    by_cases hsame : account.details_submitted = user.stripe_onboarding_complete
    · have hres : getStripeStatus stripe faults users reqUser =
          (⟨200, StatusBody.status account.details_submitted account.details_submitted
            account.charges_enabled⟩, users) := by
        simp [getStripeStatus, User.findById, hquery, hfind, hacct, truthy, hne, hretrieve, hsame]
      rw [hres]
      refine ⟨rfl, ?_⟩
      rw [hfound, hsame]
    · have hres : getStripeStatus stripe faults users reqUser =
          (⟨200, StatusBody.status account.details_submitted account.details_submitted
            account.charges_enabled⟩,
            users.map fun u => if u.id = reqUser.id then
              { user with stripe_onboarding_complete := account.details_submitted } else u) := by
        simp [getStripeStatus, User.findById, hquery, hfind, hacct, truthy, hne, hretrieve, hsame,
          User.save, hsave, huid]
      rw [hres]
      refine ⟨rfl, ?_⟩
      exact storedUser_replace users reqUser.id _ huid
        ⟨user, List.mem_of_find?_eq_some hfind, huid⟩

/-- An instance of the relaxed check: the account of `alice` has submitted its
details and cannot take charges; she is reported connected and stored as
onboarded. -/
theorem getStripeStatus_relaxed_witness :
    getStripeStatus Fixture.stripeAccounts ⟨none, none⟩ [Fixture.aliceDoc, Fixture.bobDoc]
        Fixture.alice =
      (⟨200, StatusBody.status true true false⟩,
        [{ Fixture.aliceDoc with stripe_onboarding_complete := true }, Fixture.bobDoc]) ∧
    ((truthy Fixture.aliceDoc.stripe_account_id = false →
      getStripeStatus Fixture.stripeAccounts ⟨none, none⟩ [Fixture.aliceDoc, Fixture.bobDoc]
        Fixture.alice =
        (⟨200, StatusBody.notConnected⟩, [Fixture.aliceDoc, Fixture.bobDoc])) ∧
    (∀ accountId account, Fixture.aliceDoc.stripe_account_id = some accountId → accountId ≠ "" →
      Fixture.stripeAccounts.retrieve accountId = .ok account →
      (getStripeStatus Fixture.stripeAccounts ⟨none, none⟩ [Fixture.aliceDoc, Fixture.bobDoc]
        Fixture.alice).1 =
        ⟨200, StatusBody.status account.details_submitted account.details_submitted
          account.charges_enabled⟩ ∧
      storedUser (getStripeStatus Fixture.stripeAccounts ⟨none, none⟩
          [Fixture.aliceDoc, Fixture.bobDoc] Fixture.alice).2 Fixture.alice.id =
        some { Fixture.aliceDoc with
          stripe_onboarding_complete := account.details_submitted })) :=
  ⟨by decide,
    getStripeStatus_relaxed Fixture.stripeAccounts ⟨none, none⟩
      [Fixture.aliceDoc, Fixture.bobDoc] Fixture.alice Fixture.aliceDoc (by decide) rfl rfl⟩

/-- C22 (listing contents and order).  When the two store queries succeed,
`getTransactions` answers 200 with a list that is a permutation of the
transactions of the store owned by the user (so it holds each of them as often
as the store does, once when the store has no duplicates, and none of another
user), and in which every element's `created_at` is at least that of every
later element, in particular of the next one. -/
theorem getTransactions_listing (stripe : StripeClient) (faults : Faults) (clock : Nat → Nat)
    (db : Store) (user : User) (h0 : faults.query 0 = none) (h1 : faults.query 1 = none) :
    ∃ ts, (getTransactions stripe faults clock db user).1 = ⟨200, Body.transactions ts⟩ ∧
      ts.Perm ((getTransactions stripe faults clock db user).2.filter
        fun t => t.user_id == user.id) ∧
      (∀ t, t ∈ ts ↔ t ∈ (getTransactions stripe faults clock db user).2 ∧
        t.user_id = user.id) ∧
      ((getTransactions stripe faults clock db user).2.Nodup → ts.Nodup) ∧
      ts.Pairwise (fun a b => a.created_at ≥ b.created_at) ∧
      ts.Chain' (fun a b => a.created_at ≥ b.created_at) := by
  haveI : IsTotal Transaction (fun a b => a.created_at ≥ b.created_at) :=
    ⟨fun a b => Nat.le_total b.created_at a.created_at⟩
  haveI : IsTrans Transaction (fun a b => a.created_at ≥ b.created_at) :=
    ⟨fun _ _ _ hab hbc => Nat.le_trans hbc hab⟩
  have hperm : (sortByCreatedAtDesc (ownedBy user (getTransactions stripe faults clock db user).2)).Perm
      ((getTransactions stripe faults clock db user).2.filter fun t => t.user_id == user.id) :=
    List.perm_insertionSort _ _
  have hsorted : (sortByCreatedAtDesc
      (ownedBy user (getTransactions stripe faults clock db user).2)).Pairwise
      (fun a b => a.created_at ≥ b.created_at) :=
    List.sorted_insertionSort (fun a b : Transaction => a.created_at ≥ b.created_at) _
  refine ⟨_, getTransactions_response stripe faults clock db user h0 h1, hperm, ?_, ?_,
    hsorted, hsorted.chain'⟩
  · intro t
    rw [hperm.mem_iff, List.mem_filter]
    simp
  · intro hnodup
    exact hperm.nodup_iff.2 (hnodup.filter _)

/-- An instance of the listing: the store `shop` and `alice`, whose four
transactions come newest first. -/
theorem getTransactions_listing_witness :
    (getTransactions Fixture.stripe Faults.none Fixture.clock Fixture.shop Fixture.alice).1 =
      ⟨200, Body.transactions
        [Fixture.refundedJuice, Fixture.tea, markPaid 201 Fixture.coffee, Fixture.bread]⟩ ∧
    ∃ ts, (getTransactions Fixture.stripe Faults.none Fixture.clock Fixture.shop
        Fixture.alice).1 = ⟨200, Body.transactions ts⟩ ∧
      ts.Perm ((getTransactions Fixture.stripe Faults.none Fixture.clock Fixture.shop
        Fixture.alice).2.filter fun t => t.user_id == Fixture.alice.id) ∧
      (∀ t, t ∈ ts ↔ t ∈ (getTransactions Fixture.stripe Faults.none Fixture.clock Fixture.shop
        Fixture.alice).2 ∧ t.user_id = Fixture.alice.id) ∧
      ((getTransactions Fixture.stripe Faults.none Fixture.clock Fixture.shop
        Fixture.alice).2.Nodup → ts.Nodup) ∧
      ts.Pairwise (fun a b => a.created_at ≥ b.created_at) ∧
      ts.Chain' (fun a b => a.created_at ≥ b.created_at) :=
  ⟨by rfl,
    getTransactions_listing Fixture.stripe Faults.none Fixture.clock Fixture.shop Fixture.alice
      rfl rfl⟩

/-- C24 (the sweep is idempotent).  With `_id` a key of the collection, for a
fixed behaviour of Stripe and of the driver and whatever the clocks: running
the sweep of `getTransactions` (or of `getMetrics`) twice in sequence leaves
the store that running it once leaves, because a document marked paid is no
longer `PENDING` and a document left alone is left alone again.  Likewise,
after `handleStripeWebhook`, every stored transaction that is `PAID` is the
same, status and history included, after a sweep. -/
theorem sweep_idempotent (stripe : StripeClient) (faults : Faults) (clock₁ clock₂ : Nat → Nat)
    (db : Store) (user : User) (hids : UniqueIds db) :
    (getTransactions stripe faults clock₂
        (getTransactions stripe faults clock₁ db user).2 user).2 =
      (getTransactions stripe faults clock₁ db user).2 ∧
    (getMetrics stripe faults clock₂ (getMetrics stripe faults clock₁ db user).2 user).2 =
      (getMetrics stripe faults clock₁ db user).2 ∧
    ∀ (secret : Option String) (webhookFaults : Faults) (now : Nat) (req : WebhookRequest)
      (t : Transaction),
      t ∈ (handleStripeWebhook stripe secret webhookFaults now db req).2 →
      t.status = Status.PAID →
      findById (getTransactions stripe faults clock₁
        (handleStripeWebhook stripe secret webhookFaults now db req).2 user).2 t.id = some t ∧
      findById (getMetrics stripe faults clock₁
        (handleStripeWebhook stripe secret webhookFaults now db req).2 user).2 t.id = some t := by
  have hids₁ : UniqueIds (getTransactions stripe faults clock₁ db user).2 := by
    unfold UniqueIds
    rw [sweep_ids stripe faults clock₁ db user hids]
    exact hids
  have hidem : (getTransactions stripe faults clock₂
      (getTransactions stripe faults clock₁ db user).2 user).2 =
      (getTransactions stripe faults clock₁ db user).2 := by
    rw [sweep_store_map stripe faults clock₂ _ user hids₁]
    conv_rhs => rw [← List.map_id (getTransactions stripe faults clock₁ db user).2]
    apply List.map_congr_left
    intro x hx
    rw [sweep_store_map stripe faults clock₁ db user hids] at hx
    obtain ⟨t, _, rfl⟩ := List.mem_map.1 hx
    by_cases happ : sweepApplies stripe faults user t = true
    · simp only [happ, if_true]
      rw [sweepApplies_not_pending stripe faults user (markPaid (clock₁ t.id) t)
        (by simp [markPaid])]
      simp
    · simp [happ]
  refine ⟨hidem, ?_, ?_⟩
  · rw [getMetrics_store, getMetrics_store]
    exact hidem
  · intro secret webhookFaults now req t ht hpaid
    have hidsw : UniqueIds (handleStripeWebhook stripe secret webhookFaults now db req).2 := by
      unfold UniqueIds
      rw [(webhook_onlyMarkedPaid stripe secret webhookFaults now db req hids).1]
      exact hids
    have hkeep : findById (getTransactions stripe faults clock₁
        (handleStripeWebhook stripe secret webhookFaults now db req).2 user).2 t.id = some t := by
      rw [sweep_store_map stripe faults clock₁ _ user hidsw,
        findById_map _ _ (fun x => by split <;> rfl) hidsw t ht,
        sweepApplies_not_pending stripe faults user t (by rw [hpaid]; decide)]
      simp
    refine ⟨hkeep, ?_⟩
    rw [getMetrics_store]
    exact hkeep

/-- An instance of idempotence on the store `shop`, the second sweep running
on a later clock, and of a sweep after the webhook for `coffee`. -/
theorem sweep_idempotent_witness :
    (getTransactions Fixture.stripe Faults.none (fun i => 900 + i)
        (getTransactions Fixture.stripe Faults.none Fixture.clock Fixture.shop
          Fixture.alice).2 Fixture.alice).2 =
      (getTransactions Fixture.stripe Faults.none Fixture.clock Fixture.shop Fixture.alice).2 ∧
    (getMetrics Fixture.stripe Faults.none (fun i => 900 + i)
        (getMetrics Fixture.stripe Faults.none Fixture.clock Fixture.shop Fixture.alice).2
        Fixture.alice).2 =
      (getMetrics Fixture.stripe Faults.none Fixture.clock Fixture.shop Fixture.alice).2 ∧
    ∀ (secret : Option String) (webhookFaults : Faults) (now : Nat) (req : WebhookRequest)
      (t : Transaction),
      t ∈ (handleStripeWebhook Fixture.stripe secret webhookFaults now Fixture.shop req).2 →
      t.status = Status.PAID →
      findById (getTransactions Fixture.stripe Faults.none Fixture.clock
        (handleStripeWebhook Fixture.stripe secret webhookFaults now Fixture.shop req).2
        Fixture.alice).2 t.id = some t ∧
      findById (getMetrics Fixture.stripe Faults.none Fixture.clock
        (handleStripeWebhook Fixture.stripe secret webhookFaults now Fixture.shop req).2
        Fixture.alice).2 t.id = some t :=
  sweep_idempotent Fixture.stripe Faults.none Fixture.clock (fun i => 900 + i) Fixture.shop
    Fixture.alice (by decide)

end TransactionalApp

